import Mathlib

set_option maxRecDepth 40000

/-!
Shallow embedding of the KTV-POC subtitle backend core
(`backend/app/services/postprocessing.py`, `speaker_change.py`,
`whisper_stt_client.py`, `realtime_stt.py`, `live_stt_service.py`)
and proofs about the specified behaviour.

Conventions used throughout:
* Python `str` values are modelled as `List Char` (Unicode code points, as
  `len`/slicing see them in Python).
* Python `float` values (probabilities, timestamps, thresholds) are modelled
  as exact rationals `ℚ`.
* External collaborators (the `re` engine applied to the uncompiled
  hallucination regex table, the resemblyzer voice-embedding model) are
  modelled as function parameters; patterns passed through `re.escape`
  (profanity and dictionary keys) are modelled concretely as case-insensitive
  literal matching, which is exactly what an escaped pattern means.
-/

/-- Python `str.lower` on the alphabets that actually occur in the tables
(ASCII letters; Hangul and symbols are unaffected by case mapping). -/
def lowerChar (c : Char) : Char :=
  if 'A' ≤ c ∧ c ≤ 'Z' then Char.ofNat (c.toNat + 32) else c

/-- Case-insensitive character comparison (the effect of `re.IGNORECASE`). -/
def charCI (a b : Char) : Bool := lowerChar a == lowerChar b

/-- Case-insensitive "p is a prefix of s" (anchored match of a literal). -/
def isPrefixCI : List Char → List Char → Bool
  | [], _ => true
  | _ :: _, [] => false
  | a :: p, b :: s => charCI a b && isPrefixCI p s

/-- Case-insensitive "p occurs somewhere in s" (`re.search` of a literal). -/
def containsCI (p : List Char) : List Char → Bool
  | [] => isPrefixCI p []
  | c :: s => isPrefixCI p (c :: s) || containsCI p s

/-- `re.sub` of the escaped literal `a :: p` by `rep`: left-to-right,
non-overlapping, case-insensitive replacement.  The recursion is structural
on `fuel`, which bounds the scan length (every step consumes at least one
character, so `s.length` fuel is always enough — see `substCI`). -/
def substCIF (a : Char) (p rep : List Char) : ℕ → List Char → List Char
  | _, [] => []
  | 0, s => s
  | fuel + 1, c :: s =>
    if isPrefixCI (a :: p) (c :: s) then rep ++ substCIF a p rep fuel (s.drop p.length)
    else c :: substCIF a p rep fuel s

/-- `re.sub` of the escaped literal `a :: p` by `rep`. -/
def substCI (a : Char) (p rep s : List Char) : List Char :=
  substCIF a p rep s.length s

/-- `len(re.findall(..))` of the escaped literal `a :: p`: the number of
left-to-right non-overlapping case-insensitive matches (fueled like
`substCIF`). -/
def countCIF (a : Char) (p : List Char) : ℕ → List Char → Nat
  | _, [] => 0
  | 0, _ => 0
  | fuel + 1, c :: s =>
    if isPrefixCI (a :: p) (c :: s) then 1 + countCIF a p fuel (s.drop p.length)
    else countCIF a p fuel s

/-- `len(re.findall(..))` of the escaped literal `a :: p`. -/
def countCI (a : Char) (p s : List Char) : Nat :=
  countCIF a p s.length s

/-- Wrapper dispatching on pattern emptiness (table entries are never empty;
an empty pattern is treated as a no-op). -/
def substP (p rep s : List Char) : List Char :=
  match p with
  | [] => s
  | a :: p' => substCI a p' rep s

/-- Match count for `substP`'s pattern convention. -/
def countP (p s : List Char) : Nat :=
  match p with
  | [] => 0
  | a :: p' => countCI a p' s

/-- Python `str.isspace` characters relevant to `.strip()` / `.split()`. -/
def pyWs (c : Char) : Bool :=
  c == ' ' || c == '\t' || c == '\n' || c == '\r' || c == '\x0b' || c == '\x0c'

/-- Strip leading whitespace. -/
def stripLeft (s : List Char) : List Char := s.dropWhile pyWs

/-- Strip trailing whitespace. -/
def stripRight (s : List Char) : List Char := (s.reverse.dropWhile pyWs).reverse

/-- Python `str.strip()`. -/
def pyStrip (s : List Char) : List Char := stripRight (stripLeft s)

/-- Python `str.split()` with no argument: split on whitespace runs, no
empty tokens. -/
def pySplit : List Char → List (List Char)
  | [] => []
  | c :: s =>
    if pyWs c then pySplit s
    else ((c :: s).takeWhile (fun x => !pyWs x)) :: pySplit (s.dropWhile (fun x => !pyWs x))
termination_by s => s.length
decreasing_by
  · simp
  · exact Nat.lt_succ_of_le (List.dropWhile_sublist _).length_le

/-- Python `str.strip(chars)`: strip any of the given characters from both
ends. -/
def stripChars (cs s : List Char) : List Char :=
  ((s.dropWhile (cs.contains ·)).reverse.dropWhile (cs.contains ·)).reverse

/-- Generic one-pass scanning substitution: at each position try the matcher
`f`; on `some (rep, rest)` emit `rep` and continue after the match, otherwise
move one character on.  This is the scan loop of `re.sub`; `fuel` bounds the
number of positions visited (callers pass the string length, which suffices
because every matcher consumes at least one character). -/
def scanSub (f : List Char → Option (List Char × List Char)) : ℕ → List Char → List Char
  | 0, s => s
  | _ + 1, [] => []
  | fuel + 1, c :: s =>
    match f (c :: s) with
    | some (rep, rest) => rep ++ scanSub f fuel rest
    | none => c :: scanSub f fuel s

/-- Does the matcher `f` fire at any position of `s`? -/
def scanFind (f : List Char → Option (List Char × List Char)) : List Char → Bool
  | [] => false
  | c :: s => (f (c :: s)).isSome || scanFind f s

/-- ASCII decimal digit test. -/
def isDigitCh (c : Char) : Bool := '0' ≤ c && c ≤ '9'

/-- Numeric value of a digit list (`int(m.group(1))`). -/
def natOfDigits (ds : List Char) : ℕ :=
  ds.foldl (fun n c => 10 * n + (c.toNat - '0'.toNat)) 0

/-- Helper for `commaFormat`: digits given least-significant first. -/
def commaRev : List Char → List Char
  | a :: b :: c :: d :: rest => a :: b :: c :: ',' :: commaRev (d :: rest)
  | l => l

/-- Python `f"{n:,}"`: decimal representation with thousands separators. -/
def commaFormat (n : ℕ) : List Char :=
  (commaRev (Nat.toDigits 10 n).reverse).reverse

/-- `sub.isPrefixOf (s.drop i)`: a (case-sensitive) occurrence of `sub` in
`s` at index `i` — the notion used by `str.find` / `str.rfind`. -/
def occAt (sub s : List Char) (i : ℕ) : Bool := sub.isPrefixOf (s.drop i)

/-- Python `s.rfind(sub)`: largest occurrence index, `-1` when absent. -/
def pyRfind (s sub : List Char) : Int :=
  match ((List.range (s.length + 1)).filter (occAt sub s)).getLast? with
  | some i => (i : Int)
  | none => -1

/-- Python `s.rfind(sub, start, stop)`: the occurrence must lie inside the
slice `[start, stop)`. -/
def pyRfindIn (s sub : List Char) (start stop : ℕ) : Int :=
  match ((List.range (s.length + 1)).filter
      (fun i => decide (start ≤ i) && decide (i + sub.length ≤ stop) && occAt sub s i)).getLast? with
  | some i => (i : Int)
  | none => -1

/-- Python `s.find(sub, start)`: smallest occurrence index `≥ start`. -/
def pyFindFrom (s sub : List Char) (start : ℕ) : Int :=
  match ((List.range (s.length + 1)).filter
      (fun i => decide (start ≤ i) && occAt sub s i)).head? with
  | some i => (i : Int)
  | none => -1
/-- Static profanity table (postprocessing.py `PROFANITY_PATTERNS`); every entry is passed through `re.escape`, so matching is literal, case-insensitive substring matching. -/
def PROFANITY_PATTERNS : List (List Char) :=
  ["씨발".toList,
    "시발".toList,
    "씨bal".toList,
    "ㅅㅂ".toList,
    "ㅆㅂ".toList,
    "개새끼".toList,
    "개새".toList,
    "개색".toList,
    "ㄱㅅㄲ".toList,
    "병신".toList,
    "ㅂㅅ".toList,
    "븅신".toList,
    "지랄".toList,
    "ㅈㄹ".toList,
    "지랄한다".toList,
    "좆".toList,
    "ㅈㅇ".toList,
    "좆같다".toList,
    "좆밥".toList,
    "좆망".toList,
    "좆도".toList,
    "좆나".toList,
    "좆같이".toList,
    "니미".toList,
    "느금마".toList,
    "느금".toList,
    "엠창".toList,
    "애미".toList,
    "애비".toList,
    "새끼".toList,
    "ㅅㄲ".toList,
    "꺼져".toList,
    "닥쳐".toList,
    "죽어".toList,
    "장애인".toList,
    "정신병자".toList,
    "미친놈".toList,
    "미친년".toList,
    "찐따".toList,
    "루저".toList,
    "병자".toList,
    "정신나간".toList,
    "또라이".toList,
    "멍청이".toList,
    "꼴통".toList,
    "쌍놈".toList,
    "쌍년".toList,
    "양아치".toList,
    "개XX".toList,
    "쓰레기".toList,
    "꼴값".toList,
    "죽여버린다".toList,
    "후려친다".toList,
    "씨방새".toList,
    "개망신".toList,
    "개판".toList,
    "개소리".toList,
    "개뻥".toList,
    "개같이".toList,
    "개지랄".toList,
    "개돼지".toList,
    "쪽팔린다".toList,
    "빡친다".toList,
    "빡대가리".toList,
    "염병".toList,
    "죽일놈".toList,
    "더러운 놈".toList,
    "X같다".toList,
    "X발".toList,
    "X신".toList,
    "X놈".toList,
    "X년".toList,
    "정치깡패".toList,
    "정치모리배".toList,
    "정치쓰레기".toList,
    "정치사기꾼".toList,
    "정치깡패들".toList,
    "정치양아치".toList,
    "정치개입질".toList]

/-- Static hallucination regex table (postprocessing.py `HALLUCINATION_PATTERNS`); kept as the raw pattern source strings, matched by the abstract regex engine parameter. -/
def HALLUCINATION_PATTERNS : List (List Char) :=
  ["^thank you( for watching)?\\.?$".toList,
    "^thanks for watching\\.?$".toList,
    "^please subscribe\\.?$".toList,
    "^like and subscribe\\.?$".toList,
    "^see you next time\\.?$".toList,
    "^bye\\.?$".toList,
    "^goodbye\\.?$".toList,
    "^(Hello|Hi|Thank you|Subscribe|Like|Please subscribe|See you next time)[.!]?$".toList,
    "^don\x27t forget to (like|subscribe|comment).*$".toList,
    "^hit the (like|subscribe|notification|bell).*$".toList,
    "^smash (the|that) (like|subscribe).*$".toList,
    "^leave a (like|comment).*$".toList,
    "^click the (subscribe|bell|link).*$".toList,
    "^check out (my|our|the) (channel|video|link).*$".toList,
    "^follow (me|us) on.*$".toList,
    "^see you in the next (one|video|episode)\\.?$".toList,
    "^until next time\\.?$".toList,
    "^peace\\.?$".toList,
    "^take care\\.?$".toList,
    "^have a (good|nice|great) (day|one)\\.?$".toList,
    "^stay tuned\\.?$".toList,
    "^watch more videos\\.?$".toList,
    "^more videos coming soon\\.?$".toList,
    "^new video every.*$".toList,
    "^upload.*every.*$".toList,
    ".*subtitl(e|ed|ing|es)?\\s*(by|:).*".toList,
    ".*transcrib(e|ed|ing|es)?\\s*(by|:).*".toList,
    ".*edit(ed|ing|or|s)?\\s*(by|:).*".toList,
    ".*translat(e|ed|ing|ion|or|s)?\\s*(by|:).*".toList,
    ".*caption(ed|s|ing)?\\s*(by|:).*".toList,
    ".*creat(e|ed|ing|or|s)?\\s*(by|:).*".toList,
    ".*produc(e|ed|ing|er|tion)?\\s*(by|:).*".toList,
    ".*direct(ed|or|ing)?\\s*(by|:).*".toList,
    ".*writt(en|ing)?\\s*(by|:).*".toList,
    ".*narrat(e|ed|ing|or)?\\s*(by|:).*".toList,
    ".*present(ed|ing|er)?\\s*(by|:).*".toList,
    ".*host(ed|ing)?\\s*(by|:).*".toList,
    ".*powered\\s*by.*".toList,
    ".*sponsored\\s*by.*".toList,
    ".*brought\\s*to\\s*you\\s*by.*".toList,
    ".*made\\s*(possible\\s*)?\\s*by.*".toList,
    ".*courtesy\\s*of.*".toList,
    ".*copyright.*".toList,
    ".*©.*".toList,
    ".*all\\s*rights\\s*reserved.*".toList,
    "^[a-zA-Z]\x7b2,\x7d( [a-zA-Z]\x7b2,\x7d)\x7b0,4\x7d[.!]?$".toList,
    "^(okay|ok|yes|no|um|uh|oh|ah|hmm|huh|well|so|like|you know)\\.?$".toList,
    "^(i mean|basically|actually|literally|honestly)\\.?$".toList,
    "^one moment( please)?\\.?$".toList,
    "^just a (moment|second|sec)\\.?$".toList,
    "^hold on\\.?$".toList,
    "^wait\\.?$".toList,
    "^let me (see|think|check)\\.?$".toList,
    "^what\\?$".toList,
    "^sorry\\??$".toList,
    "^excuse me\\??$".toList,
    "^pardon\\??$".toList,
    "^right\\.?$".toList,
    "^exactly\\.?$".toList,
    "^indeed\\.?$".toList,
    "^absolutely\\.?$".toList,
    "^definitely\\.?$".toList,
    "^of course\\.?$".toList,
    "^sure\\.?$".toList,
    "^anyway(s)?\\.?$".toList,
    "^moving on\\.?$".toList,
    "^next\\.?$".toList,
    "^and\\.\x7b0,3\x7d$".toList,
    "^but\\.\x7b0,3\x7d$".toList,
    "^so\\.\x7b0,3\x7d$".toList,
    "^now\\.\x7b0,3\x7d$".toList,
    "^then\\.\x7b0,3\x7d$".toList,
    "^here\\.\x7b0,3\x7d$".toList,
    "^there\\.\x7b0,3\x7d$".toList,
    "^구독.*좋아요.*눌러.*$".toList,
    "^시청해\\s*주셔서\\s*감사합니다\\.?$".toList,
    "^감사합니다\\.?$".toList,
    "^다음에\\s*봐요\\.?$".toList,
    "^안녕히\\s*계세요\\.?$".toList,
    "^구독(과)? 좋아요( 부탁드립니다)?\\.?$".toList,
    "^좋아요(와|랑)? 구독( 부탁드립니다)?\\.?$".toList,
    "^채널을?\\s*구독해?\\s*주세요\\.?$".toList,
    "^다음에\\s*또\\s*만나요\\.?$".toList,
    "^안녕하세요\\.?$".toList,
    "^헬로우(\\.|\\!)?$".toList,
    ".*구독.*알림\\s*설정.*".toList,
    ".*좋아요.*눌러.*".toList,
    ".*구독\\s*버튼.*".toList,
    ".*알림\\s*버튼.*".toList,
    ".*종\\s*모양.*".toList,
    ".*댓글.*남겨.*".toList,
    ".*영상.*끝까지.*봐.*".toList,
    ".*채널.*방문.*".toList,
    ".*링크.*확인.*".toList,
    "^다음\\s*영상에서\\s*만나(요|겠습니다|보겠습니다)?\\.?$".toList,
    "^다음\\s*시간에\\s*만나(요|겠습니다)?\\.?$".toList,
    "^다음\\s*편에서\\s*(만나요|봐요|뵙겠습니다)?\\.?$".toList,
    "^영상\\s*봐\\s*주셔서\\s*감사합니다\\.?$".toList,
    "^시청\\s*감사합니다\\.?$".toList,
    "^끝까지\\s*시청해\\s*주셔서\\s*감사합니다\\.?$".toList,
    "^오늘\\s*영상은\\s*여기까지(입니다|예요)?\\.?$".toList,
    "^오늘은\\s*여기까지(입니다|예요)?\\.?$".toList,
    "^여기까지(입니다|예요)?\\.?$".toList,
    "^좋은\\s*하루\\s*(되세요|보내세요)\\.?$".toList,
    "^좋은\\s*밤\\s*(되세요|보내세요)\\.?$".toList,
    "^행복한\\s*하루\\s*(되세요|보내세요)\\.?$".toList,
    "^즐거운\\s*(하루|시간)\\s*(되세요|보내세요)\\.?$".toList,
    ".*자막\\s*(제작|편집|번역|감수)\\s*[:|-]?\\s*[가-힣a-zA-Z]+.*".toList,
    ".*자막\\s*[:|-]\\s*[가-힣a-zA-Z]+.*".toList,
    ".*편집\\s*(자|자막|영상)?\\s*[:|-]?\\s*[가-힣a-zA-Z]+.*".toList,
    ".*편집자\\s*[:|-]?\\s*[가-힣a-zA-Z]+.*".toList,
    ".*영상\\s*편집\\s*[:|-]?\\s*[가-힣a-zA-Z]+.*".toList,
    ".*번역\\s*(자)?\\s*[:|-]?\\s*[가-힣a-zA-Z]+.*".toList,
    ".*번역자\\s*[:|-]?\\s*[가-힣a-zA-Z]+.*".toList,
    ".*감수\\s*(자)?\\s*[:|-]?\\s*[가-힣a-zA-Z]+.*".toList,
    ".*제작\\s*(자)?\\s*[:|-]?\\s*[가-힣a-zA-Z]+.*".toList,
    ".*촬영\\s*(자)?\\s*[:|-]?\\s*[가-힣a-zA-Z]+.*".toList,
    ".*연출\\s*(자)?\\s*[:|-]?\\s*[가-힣a-zA-Z]+.*".toList,
    ".*기획\\s*(자)?\\s*[:|-]?\\s*[가-힣a-zA-Z]+.*".toList,
    ".*진행\\s*(자)?\\s*[:|-]?\\s*[가-힣a-zA-Z]+.*".toList,
    ".*나레이션\\s*[:|-]?\\s*[가-힣a-zA-Z]+.*".toList,
    ".*성우\\s*[:|-]?\\s*[가-힣a-zA-Z]+.*".toList,
    ".*해설\\s*(자)?\\s*[:|-]?\\s*[가-힣a-zA-Z]+.*".toList,
    ".*출연\\s*(자)?\\s*[:|-]?\\s*[가-힣a-zA-Z]+.*".toList,
    ".*협찬\\s*[:|-]?\\s*[가-힣a-zA-Z]+.*".toList,
    ".*후원\\s*[:|-]?\\s*[가-힣a-zA-Z]+.*".toList,
    ".*스폰서\\s*[:|-]?\\s*[가-힣a-zA-Z]+.*".toList,
    ".*제공\\s*[:|-]?\\s*[가-힣a-zA-Z]+.*".toList,
    ".*저작권\\s*[:|-]?\\s*.*".toList,
    ".*ⓒ.*".toList,
    ".*무단\\s*(복제|전재|배포)\\s*(금지)?.*".toList,
    ".*all\\s*rights?\\s*reserved.*".toList,
    "^자막.*$".toList,
    "^subtitle.*$".toList,
    "^caption.*$".toList,
    "^자막\\s*[가-힣]\x7b2,4\x7d$".toList,
    "^편집\\s*[가-힣]\x7b2,4\x7d$".toList,
    "^번역\\s*[가-힣]\x7b2,4\x7d$".toList,
    "^[가-힣]\x7b2,4\x7d\\s*자막$".toList,
    "^[가-힣]\x7b2,4\x7d\\s*편집$".toList,
    "^[가-힣]\x7b2,4\x7d\\s*번역$".toList,
    "^(네|예)\\.?$".toList,
    "^(네|예),?\\s*알겠습니다\\.?$".toList,
    "^(네|예),?\\s*감사합니다\\.?$".toList,
    "^(네|예),?\\s*이상입니다\\.?$".toList,
    "^이상입니다\\.?$".toList,
    "^(이|그|저)것은(요)?$".toList,
    "^이상으로\\s*마치겠습니다\\.?$".toList,
    "^(네|예),?\\s*잠시만(요)?\\.?$".toList,
    "^(네|예),?\\s*잠깐만(요)?\\.?$".toList,
    "^(네|예),?\\s*준비가?\\s*(되었습니다|됐습니다)\\.?$".toList,
    "^(네|예),?\\s*준비\\s*중(입니다)?\\.?$".toList,
    "^(네|예),?\\s*연결(이|이요)?\\s*(되었습니다|됐습니다|끊겼습니다)\\.?$".toList,
    "^(네|예),?\\s*연결\\s*중(입니다)?\\.?$".toList,
    "^아\\.?$".toList,
    "^어\\.?$".toList,
    "^음\\.?$".toList,
    "^응\\.?$".toList,
    "^네\\.?$".toList,
    "^예\\.?$".toList,
    "^뭐\\.?$".toList,
    "^왜\\.?$".toList,
    "^뭐요\\??$".toList,
    "^왜요\\??$".toList,
    "^그래(요)?\\.?$".toList,
    "^그렇죠\\.?$".toList,
    "^그러니까(요)?\\.?$".toList,
    "^그러게(요)?\\.?$".toList,
    "^맞아(요)?\\.?$".toList,
    "^정말(요)?\\??$".toList,
    "^진짜(요)?\\??$".toList,
    "^그러네(요)?\\.?$".toList,
    "^아니(요)?\\.?$".toList,
    "^글쎄(요)?\\.?$".toList,
    "^잠깐(만)?(요)?\\.?$".toList,
    "^잠시(만)?(요)?\\.?$".toList,
    "^저기(요)?\\.?$".toList,
    "^여기(요)?\\.?$".toList,
    "^거기(요)?\\.?$".toList,
    "^것처럼\\.?$".toList,
    "^것\\s*같습니다\\.?$".toList,
    "^있는\\s*겁니다\\.?$".toList,
    "^되겠습니다\\.?$".toList,
    "^것입니다\\.?$".toList,
    "^합니다\\.?$".toList,
    "^입니다\\.?$".toList,
    "^습니다\\.?$".toList,
    "^니다\\.?$".toList,
    "^데요\\.?$".toList,
    "^거든요\\.?$".toList,
    "^잖아요\\.?$".toList,
    "^인데(요)?\\.?$".toList,
    "^라고(요)?\\.?$".toList,
    "^니까(요)?\\.?$".toList,
    "^지만(요)?\\.?$".toList,
    "^그래서(요)?\\.?$".toList,
    "^그런데(요)?\\.?$".toList,
    "^그리고(요)?\\.?$".toList,
    "^하지만(요)?\\.?$".toList,
    "^그러면(요)?\\.?$".toList,
    "^그러나(요)?\\.?$".toList,
    "^많은\\.?$".toList,
    "^3회\\.?$".toList,
    "^이\\s*시각\\s*세계였습니다\\.?$".toList,
    "^(네|예)(\\s*(네|예))\x7b2,\x7d\\.?$".toList,
    "^(음|어|음음|어어)+$".toList,
    "^(네네네|예예예|네네|예예)+$".toList,
    "^(아아아|어어어|음음음)+$".toList,
    "^(하하|히히|호호|허허|후후)+$".toList,
    "^(ㅎㅎ|ㅋㅋ|ㅎㅎㅎ|ㅋㅋㅋ)+$".toList,
    "^(.)\\1\x7b3,\x7d$".toList,
    "^(.\x7b2,5\x7d)\\s*\\1(\\s*\\1)*$".toList,
    "^谢谢.*$".toList,
    "^[\\u4e00-\\u9fff]\x7b2,15\x7d$".toList,
    "^(谢谢|你好|再见|请|是的|好的|对|不是|没有|可以|谢谢观看|订阅|点赞).*$".toList,
    ".*感谢\\s*收看.*".toList,
    ".*感谢\\s*观看.*".toList,
    ".*请\\s*订阅.*".toList,
    ".*请\\s*点赞.*".toList,
    ".*字幕\\s*[:：].*".toList,
    ".*翻译\\s*[:：].*".toList,
    ".*编辑\\s*[:：].*".toList,
    ".*制作\\s*[:：].*".toList,
    "^ありがとう.*$".toList,
    "^[\\u3040-\\u30ff]\x7b2,15\x7d$".toList,
    "^(こんにちは|こんばんは|おはよう|さようなら|ありがとう|はい|いいえ|そうです|そうですね).*$".toList,
    ".*ご視聴.*ありがとう.*".toList,
    ".*チャンネル登録.*".toList,
    ".*高評価.*".toList,
    ".*字幕\\s*[:：].*".toList,
    ".*翻訳\\s*[:：].*".toList,
    ".*編集\\s*[:：].*".toList,
    ".*制作\\s*[:：].*".toList,
    "^[\\s\\.\\,\\!\\?\\-\\~\\♪\\♫\\🎵\\🎶\\…\\*\\#\\@\\&\\%\\$\\^\\=\\+\\_\\|\\\\\\[\\]\\\x7b\\\x7d\\<\\>\\\x27\\\"\\\x60]+$".toList,
    "^\\.\x7b2,\x7d$".toList,
    "^\\s*$".toList,
    "^[-_=+*#@!?.,;:]\x7b2,\x7d$".toList,
    "^\\(.*\\)$".toList,
    "^\\[.*\\]$".toList,
    "^「.*」$".toList,
    "^『.*』$".toList,
    "^《.*》$".toList,
    "^【.*】$".toList,
    "^음성\\s*없음\\.?$".toList,
    "^무음\\.?$".toList,
    "^침묵\\.?$".toList,
    "^(박수|환호|음악|웃음|울음|탄성|한숨|기침|재채기|딸꾹질)(\\s*소리)?\\.?$".toList,
    "^박수\\s*갈채\\.?$".toList,
    "^배경\\s*음악\\.?$".toList,
    "^배경음\\.?$".toList,
    "^효과음\\.?$".toList,
    "^잡음\\.?$".toList,
    "^소음\\.?$".toList,
    "^테스트(입니다)?\\.?$".toList,
    "^마이크\\s*테스트\\.?$".toList,
    "^사운드\\s*테스트\\.?$".toList,
    "^음성\\s*테스트\\.?$".toList,
    "^\\[음악\\]$".toList,
    "^\\[박수\\]$".toList,
    "^\\[웃음\\]$".toList,
    "^\\[침묵\\]$".toList,
    "^\\(음악\\)$".toList,
    "^\\(박수\\)$".toList,
    "^\\(웃음\\)$".toList,
    "^\\(침묵\\)$".toList,
    "^♪.*♪$".toList,
    "^🎵.*🎵$".toList,
    "^화면이?\\s*전환(됩니다|되었습니다)?\\.?$".toList,
    "^영상이?\\s*시작(됩니다|되었습니다)?\\.?$".toList,
    "^영상이?\\s*종료(됩니다|되었습니다)?\\.?$".toList,
    "^방송이?\\s*시작(됩니다|되었습니다)?\\.?$".toList,
    "^방송이?\\s*종료(됩니다|되었습니다)?\\.?$".toList,
    "^잠시\\s*후에?\\s*(계속됩니다|돌아오겠습니다)\\.?$".toList,
    "^잠시\\s*후\\.?$".toList,
    "^광고\\s*후에?\\s*(계속됩니다|돌아오겠습니다)\\.?$".toList,
    "^\\d+\\.?$".toList,
    "^\\d+:\\d+\\.?$".toList,
    "^\\d+분\\.?$".toList,
    "^\\d+초\\.?$".toList,
    "^\\d+시\\.?$".toList,
    "^[\\!\\?\\.]+$".toList,
    "^[\\u2600-\\u26FF\\u2700-\\u27BF\\U0001F300-\\U0001F9FF]+$".toList,
    "^[ㄱ-ㅎㅏ-ㅣ]+$".toList,
    "^[a-zA-Z]$".toList,
    "^[가-힣]$".toList,
    ".*청취해\\s*주셔서\\s*감사.*".toList,
    ".*들어주셔서\\s*감사.*".toList,
    ".*애청자\\s*여러분.*".toList,
    ".*시청자\\s*여러분.*".toList,
    ".*구독자\\s*여러분.*".toList,
    ".*청취자\\s*여러분.*".toList,
    "^이\\s*시간\\s*마치겠습니다\\.?$".toList,
    "^지금까지\\s*.*였습니다\\.?$".toList,
    "^다음\\s*시간에\\s*뵙겠습니다\\.?$".toList,
    "^다음\\s*주에\\s*(만나요|뵙겠습니다)\\.?$".toList,
    "^\\.\x7b3,\x7d$".toList,
    "^-\x7b3,\x7d$".toList,
    "^_\x7b3,\x7d$".toList,
    "^~\x7b2,\x7d$".toList,
    "^\\*\x7b2,\x7d$".toList,
    "^(gracias|hola|adiós|por favor|sí|no)\\.?$".toList,
    "^(merci|bonjour|au revoir|s\x27il vous plaît|oui|non)\\.?$".toList,
    "^(danke|hallo|auf wiedersehen|bitte|ja|nein)\\.?$".toList,
    ".*subtítulos\\s*por.*".toList,
    ".*sous-titres\\s*par.*".toList,
    ".*untertitel\\s*von.*".toList,
    "^지금까지\\s*.+\\s*기자였습니다\\.?$".toList,
    "^.+\\s*기자의\\s*보도였습니다\\.?$".toList,
    "^.+에서\\s*전해드렸습니다\\.?$".toList,
    "^뉴스였습니다\\.?$".toList,
    "^보도였습니다\\.?$".toList,
    "^속보입니다\\.?$".toList,
    "^긴급\\s*속보\\.?$".toList,
    "^.+\\s*아나운서였습니다\\.?$".toList,
    "^앵커였습니다\\.?$".toList,
    "^이상\\s*.+\\s*뉴스였습니다\\.?$".toList]

/-- Static correction table (postprocessing.py `ABBREVIATION_DICT`), in dict iteration order (insertion order, duplicate keys keep first position / last value). -/
def ABBREVIATION_DICT : List (List Char × List Char) :=
  [("아이엠에프".toList, "IMF".toList),
    ("에이아이".toList, "AI".toList),
    ("케이피아이".toList, "KPI".toList),
    ("비피에스".toList, "BPS".toList),
    ("이피에스".toList, "EPS".toList),
    ("디비".toList, "DB".toList),
    ("유아이".toList, "UI".toList),
    ("유엑스".toList, "UX".toList),
    ("에이피아이".toList, "API".toList),
    ("에스디케이".toList, "SDK".toList),
    ("씨디엔".toList, "CDN".toList),
    ("브이피엔".toList, "VPN".toList),
    ("아이피".toList, "IP".toList),
    ("티씨피".toList, "TCP".toList),
    ("유디피".toList, "UDP".toList),
    ("에이치티티피".toList, "HTTP".toList),
    ("에이치티티피에스".toList, "HTTPS".toList),
    ("제이에스오엔".toList, "JSON".toList),
    ("엑스엠엘".toList, "XML".toList),
    ("씨에스에스".toList, "CSS".toList),
    ("에이치티엠엘".toList, "HTML".toList),
    ("씨피유".toList, "CPU".toList),
    ("지피유".toList, "GPU".toList),
    ("램".toList, "RAM".toList),
    ("에스에스디".toList, "SSD".toList),
    ("에이치디디".toList, "HDD".toList),
    ("엘엘엠".toList, "LLM".toList),
    ("지피티".toList, "GPT".toList),
    ("엔엘피".toList, "NLP".toList),
    ("엠엘".toList, "ML".toList),
    ("디엘".toList, "DL".toList),
    ("에스티티".toList, "STT".toList),
    ("티티에스".toList, "TTS".toList),
    ("오씨알".toList, "OCR".toList),
    ("비투비".toList, "B2B".toList),
    ("비투씨".toList, "B2C".toList),
    ("시투씨".toList, "C2C".toList),
    ("오투오".toList, "O2O".toList),
    ("알앤디".toList, "R&D".toList),
    ("엠앤에이".toList, "M&A".toList),
    ("아이피오".toList, "IPO".toList),
    ("피알".toList, "PR".toList),
    ("에이치알".toList, "HR".toList),
    ("씨이오".toList, "CEO".toList),
    ("씨에프오".toList, "CFO".toList),
    ("씨티오".toList, "CTO".toList),
    ("씨오오".toList, "COO".toList),
    ("브이피".toList, "VP".toList),
    ("지엠".toList, "GM".toList),
    ("피디".toList, "PD".toList),
    ("피엠".toList, "PM".toList),
    ("오케이알".toList, "OKR".toList),
    ("에스오피".toList, "SOP".toList),
    ("아르오아이".toList, "ROI".toList),
    ("피앤엘".toList, "P&L".toList),
    ("퍼센트".toList, "%".toList),
    ("프로".toList, "%".toList),
    ("달러".toList, "$".toList),
    ("유에스디".toList, "USD".toList),
    ("케이알더블유".toList, "KRW".toList),
    ("제이피와이".toList, "JPY".toList),
    ("씨엔와이".toList, "CNY".toList),
    ("유로".toList, "EUR".toList),
    ("줌".toList, "Zoom".toList),
    ("줌 회의".toList, "Zoom 회의".toList),
    ("화상회의".toList, "화상회의".toList),
    ("미팅".toList, "미팅".toList),
    ("콜".toList, "콜".toList),
    ("컨퍼런스".toList, "컨퍼런스".toList),
    ("웨비나".toList, "웨비나".toList),
    ("브레이크아웃".toList, "브레이크아웃".toList),
    ("스크린쉐어".toList, "화면공유".toList),
    ("뮤트".toList, "음소거".toList),
    ("언뮤트".toList, "음소거 해제".toList),
    ("오케이".toList, "OK".toList),
    ("엔지".toList, "NG".toList),
    ("티비".toList, "TV".toList),
    ("피씨".toList, "PC".toList),
    ("유에스비".toList, "USB".toList),
    ("와이파이".toList, "WiFi".toList),
    ("블루투스".toList, "Bluetooth".toList),
    ("큐알".toList, "QR".toList),
    ("이메일".toList, "이메일".toList),
    ("유알엘".toList, "URL".toList),
    ("R and D".toList, "R&D".toList),
    ("r and d".toList, "R&D".toList),
    ("R & D".toList, "R&D".toList),
    ("M and A".toList, "M&A".toList),
    ("m and a".toList, "M&A".toList),
    ("P and L".toList, "P&L".toList),
    ("fifty percent".toList, "50%".toList),
    ("twenty percent".toList, "20%".toList),
    ("thirty percent".toList, "30%".toList),
    ("one hundred percent".toList, "100%".toList),
    ("오이시디".toList, "OECD".toList),
    ("더블유티오".toList, "WTO".toList),
    ("에프티에이".toList, "FTA".toList),
    ("알씨이피".toList, "RCEP".toList),
    ("티피피".toList, "TPP".toList),
    ("에스디지에스".toList, "SDGs".toList),
    ("에이아이아이비".toList, "AIIB".toList),
    ("에이디비".toList, "ADB".toList),
    ("에이펙".toList, "APEC".toList),
    ("씨오피".toList, "COP".toList),
    ("엔디씨".toList, "NDC".toList),
    ("지디피".toList, "GDP".toList),
    ("지엔피".toList, "GNP".toList),
    ("모에프".toList, "MOEF".toList),
    ("모이스".toList, "MOIS".toList),
    ("모파".toList, "MOFA".toList),
    ("모유".toList, "MOU".toList),
    ("모제이".toList, "MOJ".toList),
    ("엠엔디".toList, "MND".toList),
    ("모히트".toList, "MOLIT".toList),
    ("모에이치더블유".toList, "MOHW".toList),
    ("케이디아이".toList, "KDI".toList),
    ("엔아이에스".toList, "NIS".toList),
    ("비에이아이".toList, "BAI".toList),
    ("케이에프티씨".toList, "KFTC".toList),
    ("에프에스에스".toList, "FSS".toList)]

/-- Static correction table (postprocessing.py `GOVERNMENT_CORRECTION_DICT`), in dict iteration order (insertion order, duplicate keys keep first position / last value). -/
def GOVERNMENT_CORRECTION_DICT : List (List Char × List Char) :=
  [("국민의뢰".toList, "국민의례".toList),
    ("국민 의뢰".toList, "국민의례".toList),
    ("국민이례".toList, "국민의례".toList),
    ("공모회의".toList, "국무회의".toList),
    ("국모회의".toList, "국무회의".toList),
    ("국무 회의".toList, "국무회의".toList),
    ("성령".toList, "의장".toList),
    ("성령께서".toList, "의장께서".toList),
    ("개의".toList, "개의".toList),
    ("폐의".toList, "폐회".toList),
    ("페회".toList, "폐회".toList),
    ("대통영".toList, "대통령".toList),
    ("대퉁령".toList, "대통령".toList),
    ("국무총니".toList, "국무총리".toList),
    ("국무 총리".toList, "국무총리".toList),
    ("부총니".toList, "부총리".toList),
    ("장관님".toList, "장관".toList),
    ("차관님".toList, "차관".toList),
    ("청장님".toList, "청장".toList),
    ("기회재정부".toList, "기획재정부".toList),
    ("기획 재정부".toList, "기획재정부".toList),
    ("외교부".toList, "외교부".toList),
    ("국방부".toList, "국방부".toList),
    ("행정안전부".toList, "행정안전부".toList),
    ("행안부".toList, "행정안전부".toList),
    ("문체부".toList, "문화체육관광부".toList),
    ("문화체육 관광부".toList, "문화체육관광부".toList),
    ("농식품부".toList, "농림축산식품부".toList),
    ("산업부".toList, "산업통상자원부".toList),
    ("산자부".toList, "산업통상자원부".toList),
    ("복지부".toList, "보건복지부".toList),
    ("환경부".toList, "환경부".toList),
    ("고용부".toList, "고용노동부".toList),
    ("여가부".toList, "여성가족부".toList),
    ("국토부".toList, "국토교통부".toList),
    ("해수부".toList, "해양수산부".toList),
    ("중기부".toList, "중소벤처기업부".toList),
    ("과기부".toList, "과학기술정보통신부".toList),
    ("과기정통부".toList, "과학기술정보통신부".toList),
    ("법무부".toList, "법무부".toList),
    ("교육부".toList, "교육부".toList),
    ("통일부".toList, "통일부".toList),
    ("본회의".toList, "본회의".toList),
    ("상임위".toList, "상임위원회".toList),
    ("상임 위원회".toList, "상임위원회".toList),
    ("특위".toList, "특별위원회".toList),
    ("특별 위원회".toList, "특별위원회".toList),
    ("예결위".toList, "예산결산특별위원회".toList),
    ("법사위".toList, "법제사법위원회".toList),
    ("정무위".toList, "정무위원회".toList),
    ("기재위".toList, "기획재정위원회".toList),
    ("국방위".toList, "국방위원회".toList),
    ("행안위".toList, "행정안전위원회".toList),
    ("문체위".toList, "문화체육관광위원회".toList),
    ("농해수위".toList, "농림축산식품해양수산위원회".toList),
    ("산자위".toList, "산업통상자원중소벤처기업위원회".toList),
    ("복지위".toList, "보건복지위원회".toList),
    ("환노위".toList, "환경노동위원회".toList),
    ("국토위".toList, "국토교통위원회".toList),
    ("교육위".toList, "교육위원회".toList),
    ("과방위".toList, "과학기술정보방송통신위원회".toList),
    ("외통위".toList, "외교통일위원회".toList),
    ("여가위".toList, "여성가족위원회".toList),
    ("정보위".toList, "정보위원회".toList),
    ("윤리위".toList, "윤리특별위원회".toList),
    ("의안".toList, "의안".toList),
    ("법률안".toList, "법률안".toList),
    ("법률 안".toList, "법률안".toList),
    ("시행령".toList, "시행령".toList),
    ("시행 령".toList, "시행령".toList),
    ("대통령령".toList, "대통령령".toList),
    ("대통령 령".toList, "대통령령".toList),
    ("동의안".toList, "동의안".toList),
    ("동의 안".toList, "동의안".toList),
    ("결의안".toList, "결의안".toList),
    ("결의 안".toList, "결의안".toList),
    ("건의안".toList, "건의안".toList),
    ("예산안".toList, "예산안".toList),
    ("예산 안".toList, "예산안".toList),
    ("추경".toList, "추가경정예산".toList),
    ("추경안".toList, "추가경정예산안".toList),
    ("본예산".toList, "본예산".toList),
    ("가결".toList, "가결".toList),
    ("부결".toList, "부결".toList),
    ("재적".toList, "재적".toList),
    ("출석".toList, "출석".toList),
    ("찬성".toList, "찬성".toList),
    ("반대".toList, "반대".toList),
    ("기권".toList, "기권".toList),
    ("의결".toList, "의결".toList),
    ("의결 정족수".toList, "의결정족수".toList),
    ("과반수".toList, "과반수".toList),
    ("삼분의이".toList, "3분의 2".toList),
    ("3분의 이".toList, "3분의 2".toList),
    ("이의없음".toList, "이의 없음".toList),
    ("이의 없음".toList, "이의 없음".toList),
    ("만장일치".toList, "만장일치".toList),
    ("표결".toList, "표결".toList),
    ("기명투표".toList, "기명투표".toList),
    ("무기명투표".toList, "무기명투표".toList),
    ("의사일정".toList, "의사일정".toList),
    ("의사진행발언".toList, "의사진행발언".toList),
    ("정회".toList, "정회".toList),
    ("산회".toList, "산회".toList),
    ("속개".toList, "속개".toList),
    ("개회".toList, "개회".toList),
    ("상정".toList, "상정".toList),
    ("심사".toList, "심사".toList),
    ("소위원회".toList, "소위원회".toList),
    ("간사".toList, "간사".toList),
    ("위원장".toList, "위원장".toList),
    ("질의".toList, "질의".toList),
    ("답변".toList, "답변".toList),
    ("자료제출".toList, "자료제출".toList),
    ("의사봉".toList, "의사봉".toList),
    ("정족수".toList, "정족수".toList),
    ("위원정수".toList, "위원정수".toList),
    ("위원정족수".toList, "위원정족수".toList),
    ("청원".toList, "청원".toList),
    ("국정조사".toList, "국정조사".toList),
    ("운영위원회".toList, "운영위원회".toList),
    ("정책".toList, "정책".toList),
    ("시책".toList, "시책".toList),
    ("현안".toList, "현안".toList),
    ("안건".toList, "안건".toList),
    ("보고".toList, "보고".toList),
    ("심의".toList, "심의".toList),
    ("승인".toList, "승인".toList),
    ("허가".toList, "허가".toList),
    ("인가".toList, "인가".toList),
    ("국정감사".toList, "국정감사".toList),
    ("국정 감사".toList, "국정감사".toList),
    ("국감".toList, "국정감사".toList),
    ("청문회".toList, "청문회".toList),
    ("청문 회".toList, "청문회".toList),
    ("인사청문회".toList, "인사청문회".toList),
    ("대정부질문".toList, "대정부질문".toList),
    ("대정부 질문".toList, "대정부질문".toList)]

/-- Static correction table (postprocessing.py `PROPER_NOUN_DICT`), in dict iteration order (insertion order, duplicate keys keep first position / last value). -/
def PROPER_NOUN_DICT : List (List Char × List Char) :=
  [("이재명".toList, "이재명".toList),
    ("이 재명".toList, "이재명".toList),
    ("윤석열".toList, "윤석열".toList),
    ("윤 석열".toList, "윤석열".toList),
    ("문재인".toList, "문재인".toList),
    ("박근혜".toList, "박근혜".toList),
    ("이명박".toList, "이명박".toList),
    ("노무현".toList, "노무현".toList),
    ("김대중".toList, "김대중".toList),
    ("김영삼".toList, "김영삼".toList),
    ("전두환".toList, "전두환".toList),
    ("노태우".toList, "노태우".toList),
    ("한덕수".toList, "한덕수".toList),
    ("이낙연".toList, "이낙연".toList),
    ("정세균".toList, "정세균".toList),
    ("김기현".toList, "김기현".toList),
    ("이준석".toList, "이준석".toList),
    ("홍준표".toList, "홍준표".toList),
    ("유승민".toList, "유승민".toList),
    ("안철수".toList, "안철수".toList),
    ("심상정".toList, "심상정".toList),
    ("이정미".toList, "이정미".toList),
    ("조국".toList, "조국".toList),
    ("추미애".toList, "추미애".toList),
    ("박용진".toList, "박용진".toList),
    ("나경원".toList, "나경원".toList),
    ("오세훈".toList, "오세훈".toList),
    ("박영선".toList, "박영선".toList),
    ("김동연".toList, "김동연".toList),
    ("김진표".toList, "김진표".toList),
    ("더불어민주당".toList, "더불어민주당".toList),
    ("더민주".toList, "더불어민주당".toList),
    ("민주당".toList, "더불어민주당".toList),
    ("국민의힘".toList, "국민의힘".toList),
    ("국힘".toList, "국민의힘".toList),
    ("조국혁신당".toList, "조국혁신당".toList),
    ("조국 혁신당".toList, "조국혁신당".toList),
    ("개혁신당".toList, "개혁신당".toList),
    ("진보당".toList, "진보당".toList),
    ("정의당".toList, "정의당".toList),
    ("국민의당".toList, "국민의당".toList),
    ("녹색당".toList, "녹색당".toList),
    ("기본소득당".toList, "기본소득당".toList),
    ("시대전환".toList, "시대전환".toList),
    ("노동당".toList, "노동당".toList),
    ("새로운미래".toList, "새로운미래".toList),
    ("청와대".toList, "청와대".toList),
    ("청아대".toList, "청와대".toList),
    ("대통령실".toList, "대통령실".toList),
    ("대통령 실".toList, "대통령실".toList),
    ("용산청사".toList, "용산청사".toList),
    ("국회의사당".toList, "국회의사당".toList),
    ("국회 의사당".toList, "국회의사당".toList),
    ("헌법재판소".toList, "헌법재판소".toList),
    ("헌재".toList, "헌법재판소".toList),
    ("대법원".toList, "대법원".toList),
    ("감사원".toList, "감사원".toList),
    ("국정원".toList, "국가정보원".toList),
    ("국가정보원".toList, "국가정보원".toList),
    ("경찰청".toList, "경찰청".toList),
    ("검찰청".toList, "검찰청".toList),
    ("대검찰청".toList, "대검찰청".toList),
    ("국세청".toList, "국세청".toList),
    ("관세청".toList, "관세청".toList),
    ("특허청".toList, "특허청".toList),
    ("기상청".toList, "기상청".toList),
    ("소방청".toList, "소방청".toList),
    ("산림청".toList, "산림청".toList),
    ("조달청".toList, "조달청".toList),
    ("통계청".toList, "통계청".toList),
    ("병무청".toList, "병무청".toList),
    ("방위사업청".toList, "방위사업청".toList),
    ("행정안전부".toList, "행정안전부".toList),
    ("서울특별시".toList, "서울특별시".toList),
    ("서울시".toList, "서울시".toList),
    ("부산광역시".toList, "부산광역시".toList),
    ("부산시".toList, "부산시".toList),
    ("대구광역시".toList, "대구광역시".toList),
    ("대구시".toList, "대구시".toList),
    ("인천광역시".toList, "인천광역시".toList),
    ("인천시".toList, "인천시".toList),
    ("광주광역시".toList, "광주광역시".toList),
    ("광주시".toList, "광주시".toList),
    ("대전광역시".toList, "대전광역시".toList),
    ("대전시".toList, "대전시".toList),
    ("울산광역시".toList, "울산광역시".toList),
    ("울산시".toList, "울산시".toList),
    ("세종특별자치시".toList, "세종특별자치시".toList),
    ("세종시".toList, "세종시".toList),
    ("경기도".toList, "경기도".toList),
    ("강원도".toList, "강원도".toList),
    ("충청북도".toList, "충청북도".toList),
    ("충북".toList, "충청북도".toList),
    ("충청남도".toList, "충청남도".toList),
    ("충남".toList, "충청남도".toList),
    ("전라북도".toList, "전라북도".toList),
    ("전북".toList, "전라북도".toList),
    ("전라남도".toList, "전라남도".toList),
    ("전남".toList, "전라남도".toList),
    ("경상북도".toList, "경상북도".toList),
    ("경북".toList, "경상북도".toList),
    ("경상남도".toList, "경상남도".toList),
    ("경남".toList, "경상남도".toList),
    ("제주특별자치도".toList, "제주특별자치도".toList),
    ("제주도".toList, "제주도".toList),
    ("유엔".toList, "UN".toList),
    ("유앤".toList, "UN".toList),
    ("나토".toList, "NATO".toList),
    ("나또".toList, "NATO".toList),
    ("아세안".toList, "ASEAN".toList),
    ("오펙".toList, "OPEC".toList),
    ("지투십".toList, "G20".toList),
    ("지이십".toList, "G20".toList),
    ("지세븐".toList, "G7".toList),
    ("지칠".toList, "G7".toList),
    ("아이엠에프".toList, "IMF".toList),
    ("세계은행".toList, "세계은행".toList),
    ("월드뱅크".toList, "세계은행".toList),
    ("세계보건기구".toList, "WHO".toList),
    ("더블유에이치오".toList, "WHO".toList),
    ("박수".toList, "[박수]".toList),
    ("환호".toList, "[환호]".toList),
    ("웅성웅성".toList, "[웅성]".toList),
    ("웅성거림".toList, "[웅성]".toList)]

/-- The note-symbol character class of the first entry of `MUSIC_PATTERNS`
(`[♪♫🎵🎶🎤🎼]+`, used with `re.search`): it fires iff any of these
characters occurs. -/
def noteChars : List Char := ['♪', '♫', '🎵', '🎶', '🎤', '🎼']

/-- The remaining entries of `MUSIC_PATTERNS` are escaped-bracket literals
(`\[music\]`, `\(music\)`, ...), searched case-insensitively. -/
def musicLiterals : List (List Char) :=
  ["[music]".toList,
    "[music playing]".toList,
    "(music)".toList,
    "(music playing)".toList,
    "[singing]".toList,
    "(singing)".toList,
    "[음악]".toList,
    "(음악)".toList,
    "[노래]".toList,
    "(노래)".toList,
    "[배경음악]".toList]

/-- `any(p.search(text) for p in COMPILED_MUSIC_PATTERNS)` — the loop in
`detect_music` step 1. -/
def musicPatternsFound (text : List Char) : Bool :=
  text.any (noteChars.contains ·) || musicLiterals.any (fun l => containsCI l text)

/-- Syllable alternatives of the first `LYRIC_PATTERNS` entry
(`^(라|나|다|바|마|파|타|하|아|이|우|오)+\s*(…)+$`). -/
def lyricSyl : List Char := "라나다바마파타하아이우오".toList

/-- First lyric pattern: the whole string is a nonempty syllable run, an
optional single whitespace block, then another nonempty syllable run.
Equivalently: either all characters are syllables and there are at least two
of them, or the maximal leading syllable run, the following maximal
whitespace run and the remainder are nonempty with the remainder all
syllables. -/
def lyricPat1 (s : List Char) : Bool :=
  (decide (2 ≤ s.length) && s.all (lyricSyl.contains ·)) ||
  (let a := s.takeWhile (lyricSyl.contains ·)
   let rest := s.drop a.length
   let w := rest.takeWhile pyWs
   let b := rest.drop w.length
   !a.isEmpty && !w.isEmpty && !b.isEmpty && b.all (lyricSyl.contains ·))

/-- Token alternatives of the second `LYRIC_PATTERNS` entry
(`^(la|na|da|ba|sha|do|re|mi|fa|so|si|yeah|oh|ah)+\s*`). -/
def lyricTokens : List (List Char) :=
  ["la".toList, "na".toList, "da".toList, "ba".toList, "sha".toList,
    "do".toList, "re".toList, "mi".toList, "fa".toList, "so".toList,
    "si".toList, "yeah".toList, "oh".toList, "ah".toList]

/-- Second lyric pattern, with `re.match` anchoring at the start and no `$`:
the pattern matches iff some nonempty token concatenation is a prefix, which
holds iff a single token is a prefix (the trailing `\s*` always matches). -/
def lyricPat2 (s : List Char) : Bool :=
  lyricTokens.any (fun t => t.isPrefixOf s)

/-- Humming alternatives of the third `LYRIC_PATTERNS` entry
(`^(음|흠|훔|흥|응)+\s*(음|흠|훔|흥|응)*$`). -/
def humChars : List Char := "음흠훔흥응".toList

/-- Third lyric pattern: a nonempty humming run, an optional single
whitespace block, then a possibly empty humming run ending the string. -/
def lyricPat3 (s : List Char) : Bool :=
  (!s.isEmpty && s.all (humChars.contains ·)) ||
  (let a := s.takeWhile (humChars.contains ·)
   let rest := s.drop a.length
   let w := rest.takeWhile pyWs
   let b := rest.drop w.length
   !a.isEmpty && !w.isEmpty && b.all (humChars.contains ·))

/-- `any(p.match(text_lower) for p in COMPILED_LYRIC_PATTERNS)` — the loop in
`detect_music` step 2 (matched against the stripped, lowercased text). -/
def lyricPatternsMatch (s : List Char) : Bool :=
  lyricPat1 s || lyricPat2 s || lyricPat3 s

/-- Anchored match of literal parts separated by `\s*` (the shape of every
`ANTHEM_LYRICS` pattern); each part begins with a non-whitespace character,
so greedily skipping the whitespace between parts is exact. -/
def matchParts : List (List Char) → List Char → Bool
  | [], _ => true
  | p :: ps, s => isPrefixCI p s && matchParts ps ((s.drop p.length).dropWhile pyWs)
termination_by ps _ => ps.length

/-- `re.search` of a parts-with-gaps pattern: try every start position. -/
def searchParts (parts : List (List Char)) : List Char → Bool
  | [] => matchParts parts []
  | c :: s => matchParts parts (c :: s) || searchParts parts s

/-- `ANTHEM_LYRICS` (postprocessing.py): each pattern split at its `\s*`
separators into literal parts. -/
def ANTHEM_LYRICS : List (List (List Char)) :=
  [["동해".toList, "물과".toList, "백두산이".toList],
    ["마르고".toList, "닳도록".toList],
    ["하느님이".toList, "보우하사".toList],
    ["우리나라".toList, "만세".toList],
    ["무궁화".toList, "삼천리".toList],
    ["화려".toList, "강산".toList],
    ["대한".toList, "사람".toList],
    ["대한으로".toList],
    ["길이".toList, "보전하세".toList],
    ["남산".toList, "위에".toList, "저".toList, "소나무".toList],
    ["철갑을".toList, "두른".toList, "듯".toList],
    ["바람".toList, "서리".toList, "불변함은".toList],
    ["우리".toList, "기상일세".toList],
    ["가을".toList, "하늘".toList, "공활한데".toList],
    ["높고".toList, "구름".toList, "없이".toList],
    ["밝은".toList, "달은".toList, "우리".toList, "가슴".toList],
    ["일편단심일세".toList],
    ["이".toList, "기상과".toList, "이".toList, "맘으로".toList],
    ["충성을".toList, "다하여".toList],
    ["괴로우나".toList, "즐거우나".toList],
    ["나라".toList, "사랑하세".toList]]

/-- `any(p.search(text) for p in COMPILED_ANTHEM_PATTERNS)` — the loop in
`detect_music` step 2.5. -/
def anthemFound (text : List Char) : Bool :=
  ANTHEM_LYRICS.any (fun ps => searchParts ps text)

/-- `AudioContentType` (postprocessing.py). -/
inductive AudioContentType
  | speech
  | music
  | singing
  | unclear
deriving DecidableEq, Repr

/-- The `.value` string of an `AudioContentType` member. -/
def AudioContentType.val : AudioContentType → List Char
  | .speech => "speech".toList
  | .music => "music".toList
  | .singing => "singing".toList
  | .unclear => "unclear".toList

/-- `MusicDetectionResult` (postprocessing.py). -/
structure MusicDetectionResult where
  is_music : Bool
  content_type : AudioContentType
  confidence : ℚ
  replacement_text : List Char
deriving DecidableEq, Repr

/-- `detect_music` (postprocessing.py lines 103-178), translated branch by
branch.  Pattern classes are checked in source order: explicit music markers
(on the raw text), lyric/scat patterns (on the stripped lowercased text),
anthem lyric excerpts (on the raw text), then the statistical fallback on
`no_speech_prob`/`avg_logprob`. -/
def detect_music (text : List Char) (no_speech_prob avg_logprob : ℚ) :
    MusicDetectionResult :=
  if text.isEmpty then
    ⟨false, .speech, 0, []⟩
  else
    let text_lower := (pyStrip text).map lowerChar
    if musicPatternsFound text then
      ⟨true, .music, 95/100, "[♪]".toList⟩
    else if lyricPatternsMatch text_lower then
      ⟨true, .singing, 8/10, "[♪ 노래]".toList⟩
    else if anthemFound text then
      ⟨true, .singing, 9/10, "[♪ 애국가]".toList⟩
    else if 7/10 < no_speech_prob ∧ avg_logprob < -(9/10) then
      let confidence := (no_speech_prob + (1 - |avg_logprob|)) / 2
      if 6/10 < confidence then
        ⟨true, .music, confidence, "[♪]".toList⟩
      else
        ⟨false, .speech, 0, []⟩
    else
      ⟨false, .speech, 0, []⟩

/-- The five dynamic collections read by postprocessing.py from
`stt_dictionaries.json` (key/value items are already projected to pairs;
malformed items are dropped by the loaders' `isinstance` checks). -/
structure JsonData where
  profanity : List (List Char)
  hallucination : List (List Char)
  proper_nouns : List (List Char × List Char)
  government_dict : List (List Char × List Char)
  abbreviations : List (List Char × List Char)
deriving DecidableEq, Repr

/-- A store file with every collection empty (what `data.get(key, [])`
produces from `{}`). -/
def emptyJsonData : JsonData := ⟨[], [], [], [], []⟩

/-- Observable states of the backing file `stt_dictionaries.json`. -/
inductive StoreFile
  | missing
  | corrupt
  | ok (data : JsonData)
deriving DecidableEq

/-- `_load_json_data` (postprocessing.py lines 788-810): a missing file
raises `FileNotFoundError` and unparseable JSON raises `JSONDecodeError`;
both are caught and `{}` is returned, so every downstream `data.get(_, [])`
yields the empty collection. -/
def load_json_data : StoreFile → JsonData
  | .missing => emptyJsonData
  | .corrupt => emptyJsonData
  | .ok d => d

/-- Python dict insertion: an existing key keeps its position and takes the
new value, a new key is appended. -/
def dictInsert (acc : List (List Char × List Char)) (kv : List Char × List Char) :
    List (List Char × List Char) :=
  if acc.any (fun p => p.1 == kv.1) then
    acc.map (fun p => if p.1 == kv.1 then (p.1, kv.2) else p)
  else acc ++ [kv]

/-- Build a dict (as an ordered association list) from JSON items, with
Python dict duplicate-key semantics. -/
def dictFromPairs (l : List (List Char × List Char)) : List (List Char × List Char) :=
  l.foldl dictInsert []

/-- `_load_json_profanity`. -/
def load_json_profanity (fs : StoreFile) : List (List Char) :=
  (load_json_data fs).profanity

/-- `_load_json_hallucination_patterns`. -/
def load_json_hallucination_patterns (fs : StoreFile) : List (List Char) :=
  (load_json_data fs).hallucination

/-- `_load_json_proper_nouns`. -/
def load_json_proper_nouns (fs : StoreFile) : List (List Char × List Char) :=
  dictFromPairs (load_json_data fs).proper_nouns

/-- `_load_json_government_dict`. -/
def load_json_government_dict (fs : StoreFile) : List (List Char × List Char) :=
  dictFromPairs (load_json_data fs).government_dict

/-- `_load_json_abbreviations`. -/
def load_json_abbreviations (fs : StoreFile) : List (List Char × List Char) :=
  dictFromPairs (load_json_data fs).abbreviations

/-- `_get_compiled_patterns` (postprocessing.py lines 852-883): the static
hallucination patterns followed by the JSON patterns that are not already
static (the mtime-based caching only memoises this value and is not
modelled). -/
def getCompiledPatterns (fs : StoreFile) : List (List Char) :=
  HALLUCINATION_PATTERNS ++
    (load_json_hallucination_patterns fs).filter
      (fun p => !(HALLUCINATION_PATTERNS.contains p))

/-- `_get_compiled_profanity_patterns` (postprocessing.py lines 246-272):
static profanity entries followed by non-duplicate JSON entries; every entry
is `re.escape`d, so each compiled pattern is a case-insensitive literal. -/
def getCompiledProfanityPatterns (fs : StoreFile) : List (List Char) :=
  PROFANITY_PATTERNS ++
    (load_json_profanity fs).filter (fun p => !(PROFANITY_PATTERNS.contains p))

/-- `filter_profanity` (postprocessing.py lines 275-299): for each merged
pattern, count its matches in the current text and, when any exist,
substitute them by the mask and add the match count. -/
def filter_profanity (fs : StoreFile) (text : List Char) (replacement : List Char) :
    List Char × ℕ :=
  if text.isEmpty then (text, 0)
  else
    (getCompiledProfanityPatterns fs).foldl
      (fun acc p =>
        let n := countP p acc.1
        if 0 < n then (substP p replacement acc.1, acc.2 + n) else acc)
      (text, 0)

/-- Three identical consecutive words (`words[i] == words[i+1] == words[i+2]`
for some `i`). -/
def threeConsecRepeat : List (List Char) → Bool
  | a :: b :: c :: rest => (a == b && b == c) || threeConsecRepeat (b :: c :: rest)
  | _ => false

/-- `is_hallucination` (postprocessing.py lines 889-930).  The compiled
regex engine applied to the non-escaped pattern table is the external `re`
library, modelled by the parameter `reM` (`reM p t` = "the pattern source
`p`, compiled with `IGNORECASE`, `.match`es `t`"). -/
def is_hallucination (reM : List Char → List Char → Bool) (fs : StoreFile)
    (text : List Char) : Bool :=
  if text.isEmpty then true
  else
    let t := pyStrip text
    if t.length ≤ 2 then true
    else if (getCompiledPatterns fs).any (fun p => reM p t) then true
    else
      let words := pySplit t
      if decide (3 ≤ words.length) && threeConsecRepeat words then true
      else if decide (2 ≤ words.length) && words.dedup.length == 1 then true
      else false

/-- Skip a (possibly empty) whitespace run — one `\s*`. -/
def skipWs (s : List Char) : List Char := s.dropWhile pyWs

/-- Match literal parts each preceded by `\s*`, returning the remainder
after the last part (the tail shape of the `NUMBER_PATTERNS` regexes; parts
begin with non-whitespace characters, so greedy whitespace skipping is
exact). -/
def matchGapParts : List (List Char) → List Char → Option (List Char)
  | [], s => some s
  | p :: ps, s =>
    let s' := skipWs s
    if p.isPrefixOf s' then matchGapParts ps (s'.drop p.length) else none

/-- Matcher for `(\d+)\s*<parts>` money patterns with replacement
`f"{int(g1) * mult:,}원"`: a nonempty maximal digit run (the following
required character is non-digit, so maximality is exact), then the gapped
literal parts. -/
def moneyMatcher (parts : List (List Char)) (mult : ℕ) (s : List Char) :
    Option (List Char × List Char) :=
  let ds := s.takeWhile isDigitCh
  if ds.isEmpty then none
  else
    match matchGapParts parts (s.drop ds.length) with
    | some rest => some (commaFormat (natOfDigits ds * mult) ++ "원".toList, rest)
    | none => none

/-- Matcher for a literal-only money pattern `p(\s*q)*` with a fixed
replacement string. -/
def litMoneyMatcher (p : List Char) (ps : List (List Char)) (rep : List Char)
    (s : List Char) : Option (List Char × List Char) :=
  if p.isPrefixOf s then
    match matchGapParts ps (s.drop p.length) with
    | some rest => some (rep, rest)
    | none => none
  else none

/-- Matcher for `(\d+)\s*<unit>` percent patterns with replacement `\1%`. -/
def percentMatcher (unit : List Char) (s : List Char) :
    Option (List Char × List Char) :=
  let ds := s.takeWhile isDigitCh
  if ds.isEmpty then none
  else
    match matchGapParts [unit] (s.drop ds.length) with
    | some rest => some (ds ++ "%".toList, rest)
    | none => none

/-- `NUMBER_PATTERNS` (postprocessing.py lines 1413-1430), in source order;
each entry is one `re.sub` pass. -/
def NUMBER_PATTERNS : List (List Char → Option (List Char × List Char)) :=
  [moneyMatcher ["백만".toList, "원".toList] 1000000,
    moneyMatcher ["천만".toList, "원".toList] 10000000,
    moneyMatcher ["억".toList, "원".toList] 100000000,
    moneyMatcher ["조".toList, "원".toList] 1000000000000,
    litMoneyMatcher "백만".toList ["원".toList] "1,000,000원".toList,
    litMoneyMatcher "천만".toList ["원".toList] "10,000,000원".toList,
    litMoneyMatcher "일억".toList ["원".toList] "100,000,000원".toList,
    litMoneyMatcher "십억".toList ["원".toList] "1,000,000,000원".toList,
    litMoneyMatcher "백억".toList ["원".toList] "10,000,000,000원".toList,
    litMoneyMatcher "천억".toList ["원".toList] "100,000,000,000원".toList,
    litMoneyMatcher "일조".toList ["원".toList] "1,000,000,000,000원".toList,
    percentMatcher "퍼센트".toList,
    percentMatcher "프로".toList]

/-- The number-conversion stage of `apply_dictionary_mapping`: the thirteen
`re.sub` passes in order. -/
def numberSub (s : List Char) : List Char :=
  NUMBER_PATTERNS.foldl (fun t m => scanSub m t.length t) s

/-- One correction-table pass: `pattern.sub(correct, result)` for every
`(wrong, correct)` entry in table order (each key `re.escape`d and compiled
with `IGNORECASE`). -/
def applyRules (rules : List (List Char × List Char)) (t : List Char) : List Char :=
  rules.foldl (fun r kv => substP kv.1 kv.2 r) t

/-- JSON government entries applied after the static ones, skipping keys
that collide with a static key. -/
def jsonGovRules (fs : StoreFile) : List (List Char × List Char) :=
  (load_json_government_dict fs).filter
    (fun kv => !(GOVERNMENT_CORRECTION_DICT.any (fun st => st.1 == kv.1)))

/-- JSON proper-noun entries applied after the static ones, skipping keys
that collide with a static key. -/
def jsonProperRules (fs : StoreFile) : List (List Char × List Char) :=
  (load_json_proper_nouns fs).filter
    (fun kv => !(PROPER_NOUN_DICT.any (fun st => st.1 == kv.1)))

/-- JSON abbreviation entries applied after the static ones, skipping keys
that collide with a static key. -/
def jsonAbbrevRules (fs : StoreFile) : List (List Char × List Char) :=
  (load_json_abbreviations fs).filter
    (fun kv => !(ABBREVIATION_DICT.any (fun st => st.1 == kv.1)))

/-- `apply_dictionary_mapping` (postprocessing.py lines 1433-1500):
government corrections (static then JSON), proper nouns (static then JSON),
abbreviations (static then JSON), then the number patterns. -/
def apply_dictionary_mapping (fs : StoreFile) (text : List Char)
    (apply_government_dict : Bool) : List Char :=
  if text.isEmpty then text
  else
    let r0 :=
      if apply_government_dict then
        applyRules (jsonGovRules fs) (applyRules GOVERNMENT_CORRECTION_DICT text)
      else text
    let r1 := applyRules (jsonProperRules fs) (applyRules PROPER_NOUN_DICT r0)
    let r2 := applyRules (jsonAbbrevRules fs) (applyRules ABBREVIATION_DICT r1)
    numberSub r2

/-- Matcher for a whitespace run (`\s+` → `' '` in `clean_text`). -/
def wsRunMatcher (s : List Char) : Option (List Char × List Char) :=
  match s with
  | [] => none
  | c :: _ => if pyWs c then some ([' '], s.dropWhile pyWs) else none

/-- Matcher for a note-symbol run (`[♪♫🎵🎶🎤🎼]+` → `[♪]` in
`replace_music_with_label`). -/
def noteRunMatcher (s : List Char) : Option (List Char × List Char) :=
  match s with
  | [] => none
  | c :: _ =>
    if noteChars.contains c then
      some ("[♪]".toList, s.dropWhile (noteChars.contains ·))
    else none

/-- The four note symbols removed by `clean_text` when
`preserve_music_labels` is off (`[♪♫🎵🎶]+` → `''`). -/
def noteChars4 : List Char := ['♪', '♫', '🎵', '🎶']

/-- Matcher for the removal variant. -/
def noteRemoveMatcher (s : List Char) : Option (List Char × List Char) :=
  match s with
  | [] => none
  | c :: _ =>
    if noteChars4.contains c then
      some ([], s.dropWhile (noteChars4.contains ·))
    else none

/-- Case-insensitive literal at the current position, returning the rest. -/
def litCI (l s : List Char) : Option (List Char) :=
  if isPrefixCI l s then some (s.drop l.length) else none

/-- Consume an optional closing bracket (`\]?`, greedy). -/
def optCloseBr : List Char → List Char
  | ']' :: r => r
  | r => r

/-- `\[?<w>\]?` at the current position: if a `[` is present the word must
follow it (backtracking to the no-bracket branch would have to match the
word at the `[` itself, which fails since the word starts with a letter). -/
def bracketOptMatch (w s : List Char) : Option (List Char) :=
  match s with
  | '[' :: rest =>
    if isPrefixCI w rest then some (optCloseBr (rest.drop w.length)) else none
  | _ =>
    if isPrefixCI w s then some (optCloseBr (s.drop w.length)) else none

/-- Matcher for
`\[?music\]?|\(music\)|\[music playing\]|\(music playing\)` → `[♪]`,
alternatives tried in source order. -/
def musicWordMatcher (s : List Char) : Option (List Char × List Char) :=
  ((bracketOptMatch "music".toList s).orElse (fun _ =>
    (litCI "(music)".toList s).orElse (fun _ =>
      (litCI "[music playing]".toList s).orElse (fun _ =>
        litCI "(music playing)".toList s)))).map
    (fun rest => ("[♪]".toList, rest))

/-- Matcher for `\[?singing\]?|\(singing\)` → `[♪ 노래]`. -/
def singingWordMatcher (s : List Char) : Option (List Char × List Char) :=
  ((bracketOptMatch "singing".toList s).orElse (fun _ =>
    litCI "(singing)".toList s)).map
    (fun rest => ("[♪ 노래]".toList, rest))

/-- Consume a maximal `(\[♪\]\s*)+` run, returning the rest. -/
def noteLabelRun (s : List Char) : Option (List Char) :=
  if h : "[♪]".toList.isPrefixOf s then
    let r := (s.drop 3).dropWhile pyWs
    match noteLabelRun r with
    | some r' => some r'
    | none => some r
  else none
termination_by s.length
decreasing_by
  have h3 : 3 ≤ s.length := by
    have := (List.isPrefixOf_iff_prefix.mp h).length_le
    simpa using this
  have := (List.dropWhile_sublist (l := s.drop 3) pyWs).length_le
  simp only [List.length_drop] at this ⊢
  omega

/-- Matcher for `(\[♪\]\s*)+` → `'[♪] '` (collapse consecutive labels). -/
def noteLabelMatcher (s : List Char) : Option (List Char × List Char) :=
  (noteLabelRun s).map (fun rest => ("[♪] ".toList, rest))

/-- `replace_music_with_label` (postprocessing.py lines 354-376): the four
`re.sub` passes followed by `.strip()`. -/
def replace_music_with_label (text : List Char) : List Char :=
  let r1 := scanSub noteRunMatcher text.length text
  let r2 := scanSub musicWordMatcher r1.length r1
  let r3 := scanSub singingWordMatcher r2.length r2
  let r4 := scanSub noteLabelMatcher r3.length r3
  pyStrip r4

/-- `clean_text` (postprocessing.py lines 933-963): strip, collapse
whitespace runs, music-label handling, strip punctuation noise. -/
def clean_text (text : List Char) (preserve_music_labels : Bool) : List Char :=
  if text.isEmpty then []
  else
    let t := pyStrip text
    let t := scanSub wsRunMatcher t.length t
    let t :=
      if preserve_music_labels then replace_music_with_label t
      else scanSub noteRemoveMatcher t.length t
    stripChars ".,!? ".toList t

/-- The raw-segment fields read by `filter_segments` (`seg.get(..., 0)`
defaults applied by the caller of this model). -/
structure Segment where
  text : List Char
  avg_logprob : ℚ
  no_speech_prob : ℚ
deriving DecidableEq, Repr

/-- An output element of `filter_segments`: `{**seg, ...}` keeps the
original keys (field `orig`) and overrides/adds the listed ones
(`music_type` is only present on the music branch). -/
structure OutSegment where
  orig : Segment
  text : List Char
  is_music : Bool
  music_type : Option (List Char)
  confidence : ℚ
deriving DecidableEq, Repr

/-- `filter_segments` (postprocessing.py lines 1507-1586), translated
per-segment: music detection first (appending the fixed replacement label
and skipping every other stage), then cleaning, hallucination check,
confidence and no-speech thresholds, and dictionary mapping. -/
def filter_segments (reM : List Char → List Char → Bool) (fs : StoreFile)
    (segments : List Segment) (min_confidence max_no_speech_prob : ℚ)
    (detect_music_enabled : Bool) : List OutSegment :=
  match segments with
  | [] => []
  | seg :: rest =>
    let tail := filter_segments reM fs rest min_confidence max_no_speech_prob
      detect_music_enabled
    let music := detect_music seg.text seg.no_speech_prob seg.avg_logprob
    if detect_music_enabled && music.is_music then
      ⟨seg, music.replacement_text, true, some music.content_type.val,
        music.confidence⟩ :: tail
    else
      let text := clean_text seg.text true
      if text.isEmpty then tail
      else if is_hallucination reM fs text then tail
      else if seg.avg_logprob < min_confidence then tail
      else if max_no_speech_prob < seg.no_speech_prob then tail
      else
        ⟨seg, apply_dictionary_mapping fs text true, false, none,
          1 + seg.avg_logprob⟩ :: tail

/-- Sentence-ending break markers of `split_for_subtitle` priority 1, in
source order. -/
def SUBTITLE_PUNCTS : List (List Char) :=
  [". ".toList, "? ".toList, "! ".toList, "。".toList, "？".toList, "！".toList]

/-- Response-opener markers of priority 2, in source order. -/
def SUBTITLE_MARKERS : List (List Char) :=
  ["네, ".toList, "예, ".toList, "네,".toList, "예,".toList]

/-- Conjunction markers of priority 3, in source order. -/
def SUBTITLE_CONJS : List (List Char) :=
  [" 그리고 ".toList, " 그런데 ".toList, " 그러나 ".toList,
    " 하지만 ".toList, " 또한 ".toList, " 그래서 ".toList]

/-- Priority 1: `rfind(punct)` with `min_length < idx ≤ max_length`, break
after the punctuation. -/
def bestSplitP1 (searchText : List Char) (minL maxL : ℕ) : Option ℕ :=
  SUBTITLE_PUNCTS.findSome? (fun punct =>
    let idx := pyRfind searchText punct
    if (minL : Int) < idx ∧ idx ≤ (maxL : Int) then some (idx.toNat + punct.length)
    else none)

/-- Priority 2: `find(marker, min_length)` with `0 < idx ≤ max_length`,
break after the marker. -/
def bestSplitP2 (searchText : List Char) (minL maxL : ℕ) : Option ℕ :=
  SUBTITLE_MARKERS.findSome? (fun m =>
    let idx := pyFindFrom searchText m minL
    if 0 < idx ∧ idx ≤ (maxL : Int) then some (idx.toNat + m.length) else none)

/-- Priority 3: `find(conj, min_length)` with `0 < idx ≤ max_length`, break
before the conjunction. -/
def bestSplitP3 (searchText : List Char) (minL maxL : ℕ) : Option ℕ :=
  SUBTITLE_CONJS.findSome? (fun conj =>
    let idx := pyFindFrom searchText conj minL
    if 0 < idx ∧ idx ≤ (maxL : Int) then some idx.toNat else none)

/-- Priority 4: `rfind(', ', min_length, max_length)` with `0 < idx`, break
after the comma-space. -/
def bestSplitP4 (searchText : List Char) (minL maxL : ℕ) : Option ℕ :=
  let idx := pyRfindIn searchText ", ".toList minL maxL
  if 0 < idx then some (idx.toNat + 2) else none

/-- Priority 5: `rfind(' ', min_length, max_length)` with `0 < idx`, break
after the space. -/
def bestSplitP5 (searchText : List Char) (minL maxL : ℕ) : Option ℕ :=
  let idx := pyRfindIn searchText [' '] minL maxL
  if 0 < idx then some (idx.toNat + 1) else none

/-- The full break-point cascade; `max_length` is the forced break. -/
def bestSplit (searchText : List Char) (minL maxL : ℕ) : ℕ :=
  (((((bestSplitP1 searchText minL maxL).orElse
    (fun _ => bestSplitP2 searchText minL maxL)).orElse
    (fun _ => bestSplitP3 searchText minL maxL)).orElse
    (fun _ => bestSplitP4 searchText minL maxL)).orElse
    (fun _ => bestSplitP5 searchText minL maxL)).getD maxL

/-- The greedy splitting `while` loop of `split_for_subtitle`.  `fuel`
bounds the iteration count; each iteration consumes `best ≥ 1` characters
whenever `1 ≤ min_length ≤ max_length`, so `text.length + 1` suffices. -/
def splitLoop (maxL minL : ℕ) : ℕ → List Char → List (List Char)
  | 0, _ => []
  | fuel + 1, remaining0 =>
    let remaining := pyStrip remaining0
    if remaining.isEmpty then []
    else if remaining.length ≤ maxL then [remaining]
    else
      let searchText := remaining.take (maxL + 20)
      let best := bestSplit searchText minL maxL
      let line := pyStrip (remaining.take best)
      (if line.isEmpty then [] else [line]) ++
        splitLoop maxL minL fuel (remaining.drop best)

/-- The merge loop of `split_for_subtitle` with the running last line made
explicit: `merged[-1] += ' ' + line` becomes extending the accumulator. -/
def mergeAux (maxL minL : ℕ) (cur : List Char) : List (List Char) → List (List Char)
  | [] => [cur]
  | l :: ls =>
    if l.length < minL ∧ cur.length + l.length + 1 ≤ maxL then
      mergeAux maxL minL (cur ++ ' ' :: l) ls
    else cur :: mergeAux maxL minL l ls

/-- Merge lines shorter than `min_length` into their predecessor when the
combined length still fits (`split_for_subtitle`'s final loop; the first
line is always kept since `merged` starts empty). -/
def mergeShort (maxL minL : ℕ) : List (List Char) → List (List Char)
  | [] => []
  | l :: ls => mergeAux maxL minL l ls

/-- `split_for_subtitle` (postprocessing.py lines 1715-1824). -/
def split_for_subtitle (text : List Char) (max_length min_length : ℕ) :
    List (List Char) :=
  if text.isEmpty then []
  else
    let t := pyStrip text
    if t.length ≤ max_length then [t]
    else
      mergeShort max_length min_length
        (splitLoop max_length min_length (t.length + 1) t)

/-- `SpeakerChangeDetector` state (speaker_change.py lines 28-52): the
embedding is a vector over exact rationals, `current_speaker` is a Python
`int`. -/
structure DetState where
  threshold : ℚ
  min_audio_length : ℚ
  last_embedding : Option (List ℚ)
  current_speaker : ℤ
  sample_rate : ℕ
deriving DecidableEq, Repr

/-- `SpeakerChangeDetector.__init__(threshold, min_audio_length)`. -/
def detectorInit (threshold min_audio_length : ℚ) : DetState :=
  ⟨threshold, min_audio_length, none, 0, 16000⟩

/-- `SpeakerChangeDetector.reset`. -/
def detectorReset (st : DetState) : DetState :=
  { st with last_embedding := none, current_speaker := 0 }

/-- `np.frombuffer(audio_data, dtype=np.int16)` (little endian) followed by
`.astype(np.float32) / 32768.0`; a buffer whose size is not a multiple of
the item size raises `ValueError` (`none`).  The int16 values and their
quotients by 2^15 are exactly representable, so ℚ is exact here. -/
def int16Val (lo hi : ℕ) : ℤ :=
  (if (lo % 256) + 256 * (hi % 256) < 32768 then ((lo % 256) + 256 * (hi % 256) : ℤ)
   else ((lo % 256) + 256 * (hi % 256) : ℤ) - 65536)

/-- See `int16Val`: decode the byte list pairwise, little endian. -/
def decodeInt16 : List ℕ → Option (List ℚ)
  | [] => some []
  | [_] => none
  | lo :: hi :: rest =>
    (decodeInt16 rest).map (fun tail => ((int16Val lo hi : ℚ) / 32768) :: tail)

/-- `np.dot` of two embeddings. -/
def dotQ (a b : List ℚ) : ℚ :=
  (a.zip b).foldl (fun acc p => acc + p.1 * p.2) 0

/-- `int(self.min_audio_length * self.sample_rate)` (truncation towards
zero; the arguments are non-negative in every construction path). -/
def minSamples (st : DetState) : ℕ :=
  (⌊st.min_audio_length * st.sample_rate⌋).toNat

/-- `SpeakerChangeDetector.process_audio` (speaker_change.py lines 53-104).
The resemblyzer call `encoder.embed_utterance` is the external embedding
model, passed as `embed`; `none` models an exception, which the
`except`-handler turns into `(False, current_speaker)` with no state
change.  Result: `((speaker_changed, current_speaker), new state)`. -/
def process_audio (embed : List ℚ → Option (List ℚ)) (st : DetState)
    (audio_data : List ℕ) : (Bool × ℤ) × DetState :=
  match decodeInt16 audio_data with
  | none => ((false, st.current_speaker), st)
  | some audio_np =>
    if audio_np.length < minSamples st then ((false, st.current_speaker), st)
    else
      match embed audio_np with
      | none => ((false, st.current_speaker), st)
      | some embedding =>
        match st.last_embedding with
        | none =>
          ((false, st.current_speaker), { st with last_embedding := some embedding })
        | some last =>
          let similarity := dotQ last embedding
          let speaker_changed := similarity < st.threshold
          if speaker_changed then
            ((true, 1 - st.current_speaker),
              { st with current_speaker := 1 - st.current_speaker,
                        last_embedding := some embedding })
          else
            ((false, st.current_speaker),
              { st with last_embedding := some embedding })

/-- `SpeakerChangeDetector.process_audio_chunk` (speaker_change.py lines
106-137): same logic on an already-decoded float array. -/
def process_audio_chunk (embed : List ℚ → Option (List ℚ)) (st : DetState)
    (audio_chunk : List ℚ) : (Bool × ℤ) × DetState :=
  if audio_chunk.length < minSamples st then ((false, st.current_speaker), st)
  else
    match embed audio_chunk with
    | none => ((false, st.current_speaker), st)
    | some embedding =>
      match st.last_embedding with
      | none =>
        ((false, st.current_speaker), { st with last_embedding := some embedding })
      | some last =>
        let speaker_changed := dotQ last embedding < st.threshold
        if speaker_changed then
          ((true, 1 - st.current_speaker),
            { st with current_speaker := 1 - st.current_speaker,
                      last_embedding := some embedding })
        else
          ((false, st.current_speaker),
            { st with last_embedding := some embedding })

/-- Detector operations reachable through the public surface. -/
inductive DetOp
  | reset
  | processAudio (audio_data : List ℕ)
  | processChunk (audio_chunk : List ℚ)

/-- One operation step (results discarded, state kept). -/
def detStep (embed : List ℚ → Option (List ℚ)) (st : DetState) : DetOp → DetState
  | .reset => detectorReset st
  | .processAudio a => (process_audio embed st a).2
  | .processChunk c => (process_audio_chunk embed st c).2

/-- Run a detector from `__init__` through a sequence of operations. -/
def runDetector (embed : List ℚ → Option (List ℚ)) (threshold minLen : ℚ)
    (ops : List DetOp) : DetState :=
  ops.foldl (detStep embed) (detectorInit threshold minLen)

/-- Messages a send loop writes to the backend WebSocket: binary audio
payloads and the literal `"EOS"` end-of-stream token. -/
inductive SttMsg
  | audio (payload : List ℕ)
  | eos
deriving DecidableEq, Repr

/-- Number of `EOS` tokens in a sent-message trace. -/
def eosCount (ms : List SttMsg) : ℕ :=
  ms.countP (fun m => match m with | .eos => true | .audio _ => false)

/-- `stream_audio_to_whisper` (whisper_stt_client.py lines 99-175), send
side only, on a normally exhausted source: the ffmpeg stdout is modelled as
the list of chunks `read` returns before EOF; each chunk is forwarded and a
single `EOS` follows the loop (pacing `sleep`s do not affect the trace). -/
def stream_audio_to_whisper : List (List ℕ) → List SttMsg
  | [] => [.eos]
  | c :: cs => .audio c :: stream_audio_to_whisper cs

/-- `stream_audio_to_haiv` (realtime_stt.py lines 150-225), send side, same
loop shape as the whisper client. -/
def stream_audio_to_haiv : List (List ℕ) → List SttMsg
  | [] => [.eos]
  | c :: cs => .audio c :: stream_audio_to_haiv cs

/-- STT engine selected by `LiveSTTConfig.stt_engine`. -/
inductive SttEngine
  | whisper
  | haiv
deriving DecidableEq

/-- Messages arriving from the live client WebSocket, as
`send_to_stt` distinguishes them: binary audio, a parsed `{"type": "stop"}`
control message, or any other text message (ignored). -/
inductive ClientMsg
  | bytes (b : List ℕ)
  | stop
  | otherText
deriving DecidableEq

/-- The HAIV re-chunking buffer: emit `HAIV_CHUNk := 4000`-byte chunks while
enough data is buffered (`while len(audio_buffer) >= HAIV_CHUNK_SIZE`). -/
def chunkEmit (buffer : List ℕ) : List (List ℕ) × List ℕ :=
  if h : 4000 ≤ buffer.length then
    let rec' := chunkEmit (buffer.drop 4000)
    (buffer.take 4000 :: rec'.1, rec'.2)
  else ([], buffer)
termination_by buffer.length
decreasing_by simp [List.length_drop]; omega

/-- The receive loop of `send_to_stt` (live_stt_service.py lines 139-206),
up to but not including the `finally` block: returns the trace of messages
sent so far and the remaining buffer.  A `stop` control message sends `EOS`
and breaks; exhaustion of the client messages models the client disconnect
ending the loop. -/
def sendToSttLoop (engine : SttEngine) (buffer : List ℕ) :
    List ClientMsg → List SttMsg × List ℕ
  | [] => ([], buffer)
  | .bytes b :: rest =>
    match engine with
    | .whisper =>
      let tail := sendToSttLoop engine buffer rest
      (.audio b :: tail.1, tail.2)
    | .haiv =>
      let emitted := chunkEmit (buffer ++ b)
      let tail := sendToSttLoop engine emitted.2 rest
      (emitted.1.map .audio ++ tail.1, tail.2)
  | .stop :: _ => ([.eos], buffer)
  | .otherText :: rest => sendToSttLoop engine buffer rest

/-- `send_to_stt` (live_stt_service.py lines 139-206) including its
`finally` block, which flushes the residual HAIV buffer and then always
sends a further `EOS` — also on the `stop` path that already sent one. -/
def send_to_stt (engine : SttEngine) (msgs : List ClientMsg) : List SttMsg :=
  let body := sendToSttLoop engine [] msgs
  body.1 ++
    (if engine == .haiv && !body.2.isEmpty then [.audio body.2] else []) ++
    [.eos]

/-- The timestamp normalisation of the whisper client's `receive_results`
(whisper_stt_client.py lines 204-304, applied identically in the `segment`
and the final-batch branch): `start` defaults to 0, `end` to `start + 3`,
spans under 1.0s are widened to exactly 3.0s (start unchanged), then the
caller's `start_offset` is added to both ends. -/
def whisperSegTimes (start_offset : ℚ) (start? end? : Option ℚ) : ℚ × ℚ :=
  let seg_start := start?.getD 0
  let seg_end0 := end?.getD (seg_start + 3)
  let seg_end := if seg_end0 - seg_start < 1 then seg_start + 3 else seg_end0
  (start_offset + seg_start, start_offset + seg_end)

/-- The timestamp normalisation of the HAIV client's `receive_results`
(realtime_stt.py lines 260-291): the backend's `segment-start` and
`segment-length` are used as returned, only offset by `start_offset` —
no span widening. -/
def haivSegTimes (start_offset seg_start seg_length : ℚ) : ℚ × ℚ :=
  (start_offset + seg_start, start_offset + seg_start + seg_length)

/-! ## Basic lemmas about the text primitives -/

theorem pyStrip_length_le (s : List Char) : (pyStrip s).length ≤ s.length := by
  unfold pyStrip stripRight stripLeft
  calc ((s.dropWhile pyWs).reverse.dropWhile pyWs).reverse.length
      = ((s.dropWhile pyWs).reverse.dropWhile pyWs).length := List.length_reverse _
    _ ≤ (s.dropWhile pyWs).reverse.length := (List.dropWhile_sublist _).length_le
    _ = (s.dropWhile pyWs).length := List.length_reverse _
    _ ≤ s.length := (List.dropWhile_sublist _).length_le

theorem stripRight_append_ws {w : Char} (hw : pyWs w = true) (u : List Char) :
    stripRight (u ++ [w]) = stripRight u := by
  unfold stripRight
  rw [List.reverse_append]
  simp [List.dropWhile, hw]

theorem pyStrip_append_ws {w : Char} (hw : pyWs w = true) (u : List Char) :
    pyStrip (u ++ [w]) = pyStrip u := by
  unfold pyStrip stripLeft
  rw [List.dropWhile_append]
  by_cases h : (u.dropWhile pyWs).isEmpty
  · simp only [h, if_pos]
    rw [List.isEmpty_iff] at h
    simp [List.dropWhile, hw, h, stripRight]
  · simp only [h, if_neg, Bool.false_eq_true, not_false_iff]
    exact stripRight_append_ws hw _

theorem containsCI_nil_left (s : List Char) : containsCI [] s = true := by
  cases s <;> simp [containsCI, isPrefixCI]

theorem containsCI_of_drop {q l : List Char} {k : ℕ}
    (h : containsCI q (l.drop k) = true) : containsCI q l = true := by
  induction l generalizing k with
  | nil => simpa using h
  | cons c l ih =>
    cases k with
    | zero => simpa using h
    | succ k =>
      simp only [List.drop_succ_cons] at h
      simp only [containsCI, Bool.or_eq_true]
      exact Or.inr (ih h)

/-! ## C1 -/

/-- C1: for a normally exhausted audio source the end-of-stream token is
claimed to be sent exactly once, including on the live-client path where a
`stop` command and the send loop's cleanup both run.  The two file-streaming
clients do send `EOS` exactly once, but `send_to_stt` (live path) sends it
twice on a client `stop`: once in the stop branch and once more in its
`finally` cleanup — the one-shot guard the specification requires is
missing. -/
theorem eos_once_for_files_but_twice_on_live_stop :
    (∀ chunks, eosCount (stream_audio_to_whisper chunks) = 1) ∧
    (∀ chunks, eosCount (stream_audio_to_haiv chunks) = 1) ∧
    eosCount (send_to_stt .whisper [ClientMsg.stop]) = 2 := by
  refine ⟨fun chunks => ?_, fun chunks => ?_, by decide⟩
  · induction chunks with
    | nil => decide
    | cons c cs ih =>
      simpa [stream_audio_to_whisper, eosCount, List.countP_cons] using ih
  · induction chunks with
    | nil => decide
    | cons c cs ih =>
      simpa [stream_audio_to_haiv, eosCount, List.countP_cons] using ih

/-! ## C4 -/

/-- C4 as stated is false: it asserts the sub-1.0s widening for *every*
backend client, but the HAIV client uses the backend timestamps unchanged.
For the claim's own example figures (`start 0.2`, `length 0.4`,
`start_offset 10.0`) the HAIV client emits `end_time 10.6`, not the widened
`13.2`. -/
theorem haiv_short_span_not_widened :
    haivSegTimes 10 (2/10) (4/10) = (51/5, 53/5) ∧ ((53 : ℚ)/5) ≠ 66/5 := by
  constructor
  · unfold haivSegTimes
    norm_num
  · norm_num

/-- C4 (amended): the whisper client's `receive_results` adds the caller's
`start_offset` to the backend-local timestamps and widens sub-1.0s spans to
exactly 3.0s with the start unchanged (so `{start: 0.2, end: 0.6}` with
offset 10.0 yields `(10.2, 13.2)`), and every emitted whisper span is at
least 1.0s; the HAIV client only adds the offset and performs no widening. -/
theorem whisper_offsets_and_widening (off s e : ℚ) :
    (e - s < 1 → whisperSegTimes off (some s) (some e) = (off + s, off + s + 3)) ∧
    (1 ≤ e - s → whisperSegTimes off (some s) (some e) = (off + s, off + e)) ∧
    (∀ s? e?, 1 ≤ (whisperSegTimes off s? e?).2 - (whisperSegTimes off s? e?).1) ∧
    (∀ len, haivSegTimes off s len = (off + s, off + s + len)) := by
  refine ⟨fun h => ?_, fun h => ?_, fun s? e? => ?_, fun len => rfl⟩
  · unfold whisperSegTimes
    simp only [Option.getD_some, if_pos h, Prod.mk.injEq]
    exact ⟨trivial, by ring⟩
  · unfold whisperSegTimes
    simp only [Option.getD_some, if_neg (not_lt.mpr h)]
  · unfold whisperSegTimes
    rcases s? with _ | a <;> rcases e? with _ | b <;> simp only [Option.getD_none, Option.getD_some]
    · norm_num
    · split <;> simp <;> linarith
    · norm_num
    · split <;> simp <;> linarith

/-- Witness for C4's amended theorem at the specification's own scenario-4
figures. -/
theorem whisper_offsets_and_widening_witness :
    ((3 : ℚ)/5 - 1/5 < 1) ∧
      whisperSegTimes 10 (some (1/5)) (some (3/5)) = (51/5, 66/5) := by
  refine ⟨by norm_num, ?_⟩
  have h := (whisper_offsets_and_widening 10 (1/5) (3/5)).1 (by norm_num)
  rw [h]
  norm_num

/-! ## C9 -/

/-- C9: when the backing dictionary file is missing or holds corrupt JSON,
`_load_json_data` catches the error and returns `{}`, so every table
accessor degrades to the built-in static tables (the dynamic component is
empty) and every dictionary-using operation behaves exactly as with an
(existing) empty dynamic store — nothing raises. -/
theorem store_file_fallback_to_static (fs : StoreFile)
    (hfs : fs = .missing ∨ fs = .corrupt) :
    load_json_data fs = emptyJsonData ∧
    getCompiledPatterns fs = HALLUCINATION_PATTERNS ∧
    getCompiledProfanityPatterns fs = PROFANITY_PATTERNS ∧
    jsonGovRules fs = [] ∧ jsonProperRules fs = [] ∧ jsonAbbrevRules fs = [] ∧
    (∀ reM text, is_hallucination reM fs text =
      is_hallucination reM (.ok emptyJsonData) text) ∧
    (∀ text rep, filter_profanity fs text rep =
      filter_profanity (.ok emptyJsonData) text rep) ∧
    (∀ text ag, apply_dictionary_mapping fs text ag =
      apply_dictionary_mapping (.ok emptyJsonData) text ag) := by
  rcases hfs with h | h <;> subst h <;>
    exact ⟨rfl,
      by simp [getCompiledPatterns, load_json_hallucination_patterns,
        load_json_data, emptyJsonData],
      by simp [getCompiledProfanityPatterns, load_json_profanity,
        load_json_data, emptyJsonData],
      rfl, rfl, rfl, fun _ _ => rfl, fun _ _ => rfl, fun _ _ => rfl⟩

/-- Witness for C9 at the concrete `missing` store state. -/
theorem store_file_fallback_to_static_witness :
    getCompiledProfanityPatterns .missing = PROFANITY_PATTERNS ∧
    getCompiledPatterns .corrupt = HALLUCINATION_PATTERNS := by
  exact ⟨(store_file_fallback_to_static .missing (Or.inl rfl)).2.2.1,
    (store_file_fallback_to_static .corrupt (Or.inr rfl)).2.1⟩

/-! ## C6 -/

/-- C6: `SpeakerChangeDetector.process_audio` — (1) a decoded segment
shorter than `int(min_audio_length * sample_rate)` samples reports no
change and leaves the state untouched; (2) with no stored reference the new
embedding is stored and no change is reported; (3) with a stored reference,
a change is reported and the speaker toggled exactly when the similarity
(`np.dot` of the stored and new embeddings) is below the threshold, and the
stored reference is replaced by the new embedding in both outcomes. -/
theorem process_audio_cases (embed : List ℚ → Option (List ℚ)) (st : DetState)
    (ad : List ℕ) (np emb : List ℚ) :
    (decodeInt16 ad = some np → np.length < minSamples st →
      process_audio embed st ad = ((false, st.current_speaker), st)) ∧
    (decodeInt16 ad = some np → minSamples st ≤ np.length →
      embed np = some emb → st.last_embedding = none →
      process_audio embed st ad =
        ((false, st.current_speaker), { st with last_embedding := some emb })) ∧
    (∀ last, decodeInt16 ad = some np → minSamples st ≤ np.length →
      embed np = some emb → st.last_embedding = some last →
      ((dotQ last emb < st.threshold →
        process_audio embed st ad =
          ((true, 1 - st.current_speaker),
            { st with current_speaker := 1 - st.current_speaker,
                      last_embedding := some emb })) ∧
        (st.threshold ≤ dotQ last emb →
          process_audio embed st ad =
            ((false, st.current_speaker),
              { st with last_embedding := some emb })))) := by
  refine ⟨fun hdec hlen => ?_, fun hdec hlen hemb href => ?_,
    fun last hdec hlen hemb href => ⟨fun hsim => ?_, fun hsim => ?_⟩⟩
  · simp only [process_audio, hdec]
    rw [if_pos hlen]
  · simp only [process_audio, hdec, hemb, href]
    rw [if_neg (not_lt.mpr hlen)]
  · simp only [process_audio, hdec, hemb, href]
    rw [if_neg (not_lt.mpr hlen), if_pos hsim]
  · simp only [process_audio, hdec, hemb, href]
    rw [if_neg (not_lt.mpr hlen), if_neg (not_lt.mpr hsim)]

/-- Witness for C6: all three decided cases at concrete states (the third
case on its no-change side: `dot [1] [1] = 1 ≥ 0.7`). -/
theorem process_audio_cases_witness :
    (process_audio (fun _ => some [1]) (detectorInit (7/10) (1/2)) [0, 0] =
      ((false, 0), detectorInit (7/10) (1/2))) ∧
    (process_audio (fun _ => some [1]) ⟨7/10, 0, none, 0, 16000⟩ [0, 0] =
      ((false, 0), ⟨7/10, 0, some [1], 0, 16000⟩)) ∧
    (process_audio (fun _ => some [1]) ⟨7/10, 0, some [1], 0, 16000⟩ [0, 0] =
      ((false, 0), ⟨7/10, 0, some [1], 0, 16000⟩)) := by
  have hdec : decodeInt16 [0, 0] = some [0] := by
    norm_num [decodeInt16, int16Val]
  refine ⟨?_, ?_, ?_⟩
  · exact (process_audio_cases (fun _ => some [1]) (detectorInit (7/10) (1/2))
      [0, 0] [0] [1]).1 hdec (by norm_num [minSamples, detectorInit])
  · exact (process_audio_cases (fun _ => some [1]) ⟨7/10, 0, none, 0, 16000⟩
      [0, 0] [0] [1]).2.1 hdec (by norm_num [minSamples]) rfl rfl
  · exact ((process_audio_cases (fun _ => some [1]) ⟨7/10, 0, some [1], 0, 16000⟩
      [0, 0] [0] [1]).2.2 [1] hdec (by norm_num [minSamples]) rfl rfl).2
      (by norm_num [dotQ])

/-! ## C10 -/

theorem process_audio_speaker_cases (embed : List ℚ → Option (List ℚ))
    (st : DetState) (a : List ℕ) :
    (process_audio embed st a).2.current_speaker = st.current_speaker ∨
    (process_audio embed st a).2.current_speaker = 1 - st.current_speaker := by
  unfold process_audio
  cases hdec : decodeInt16 a with
  | none => exact Or.inl rfl
  | some np =>
    dsimp only
    by_cases hlen : np.length < minSamples st
    · rw [if_pos hlen]; exact Or.inl rfl
    · rw [if_neg hlen]
      cases hemb : embed np with
      | none => exact Or.inl rfl
      | some emb =>
        dsimp only
        cases href : st.last_embedding with
        | none => exact Or.inl rfl
        | some last =>
          dsimp only
          by_cases hsim : dotQ last emb < st.threshold
          · rw [if_pos hsim]; exact Or.inr rfl
          · rw [if_neg hsim]; exact Or.inl rfl

theorem process_audio_chunk_speaker_cases (embed : List ℚ → Option (List ℚ))
    (st : DetState) (c : List ℚ) :
    (process_audio_chunk embed st c).2.current_speaker = st.current_speaker ∨
    (process_audio_chunk embed st c).2.current_speaker = 1 - st.current_speaker := by
  unfold process_audio_chunk
  by_cases hlen : c.length < minSamples st
  · rw [if_pos hlen]; exact Or.inl rfl
  · rw [if_neg hlen]
    cases hemb : embed c with
    | none => exact Or.inl rfl
    | some emb =>
      dsimp only
      cases href : st.last_embedding with
      | none => exact Or.inl rfl
      | some last =>
        dsimp only
        by_cases hsim : dotQ last emb < st.threshold
        · rw [if_pos hsim]; exact Or.inr rfl
        · rw [if_neg hsim]; exact Or.inl rfl

/-- C10: across any sequence of `__init__`, `reset`, `process_audio` and
`process_audio_chunk` calls, `current_speaker` stays 0 or 1 (it is only
ever reset to 0 or toggled by `1 - x`); and when input decoding
(`np.frombuffer` on an odd-length buffer) or the embedding model raises,
the `except` handler returns `(False, current_speaker)` with the stored
reference and the speaker flag unchanged. -/
theorem detector_invariant_and_error_behaviour
    (embed : List ℚ → Option (List ℚ)) (th ml : ℚ) :
    (∀ ops, (runDetector embed th ml ops).current_speaker = 0 ∨
      (runDetector embed th ml ops).current_speaker = 1) ∧
    (∀ st ad, decodeInt16 ad = none →
      process_audio embed st ad = ((false, st.current_speaker), st)) ∧
    (∀ st ad np, decodeInt16 ad = some np → embed np = none →
      process_audio embed st ad = ((false, st.current_speaker), st)) := by
  refine ⟨?_, ?_, ?_⟩
  · intro ops
    have H : ∀ st : DetState,
        (st.current_speaker = 0 ∨ st.current_speaker = 1) →
        ((ops.foldl (detStep embed) st).current_speaker = 0 ∨
          (ops.foldl (detStep embed) st).current_speaker = 1) := by
      induction ops with
      | nil => exact fun st h => h
      | cons op ops ih =>
        intro st h
        refine ih _ ?_
        cases op with
        | reset => exact Or.inl rfl
        | processAudio a =>
          rcases process_audio_speaker_cases embed st a with h' | h' <;>
            · simp only [detStep]
              rw [h']
              omega
        | processChunk c =>
          rcases process_audio_chunk_speaker_cases embed st c with h' | h' <;>
            · simp only [detStep]
              rw [h']
              omega
    exact H _ (Or.inl rfl)
  · intro st ad h
    unfold process_audio
    rw [h]
  · intro st ad np hd he
    unfold process_audio
    rw [hd]
    dsimp only
    by_cases hlen : np.length < minSamples st
    · rw [if_pos hlen]
    · rw [if_neg hlen, he]

/-- Witness for C10: the invariant after a concrete operation sequence, and
the unchanged-state error behaviour on an odd-length buffer and on an
embedding failure. -/
theorem detector_invariant_and_error_behaviour_witness :
    ((runDetector (fun _ => none) (7/10) (1/2)
        [DetOp.processAudio [0, 0], DetOp.reset]).current_speaker = 0 ∨
      (runDetector (fun _ => none) (7/10) (1/2)
        [DetOp.processAudio [0, 0], DetOp.reset]).current_speaker = 1) ∧
    process_audio (fun _ => none) (detectorInit (7/10) (1/2)) [0] =
      ((false, 0), detectorInit (7/10) (1/2)) ∧
    process_audio (fun _ => none) ⟨7/10, 0, some [1], 0, 16000⟩ [0, 0] =
      ((false, 0), ⟨7/10, 0, some [1], 0, 16000⟩) := by
  refine ⟨(detector_invariant_and_error_behaviour (fun _ => none) (7/10) (1/2)).1 _,
    (detector_invariant_and_error_behaviour (fun _ => none) (7/10) (1/2)).2.1 _ _ rfl,
    (detector_invariant_and_error_behaviour (fun _ => none) (7/10) (1/2)).2.2 _ _ [0]
      (by norm_num [decodeInt16, int16Val]) rfl⟩

/-! ## C2 -/

theorem detect_music_replacement_mem (t : List Char) (p q : ℚ)
    (h : (detect_music t p q).is_music = true) :
    (detect_music t p q).replacement_text ∈
      ["[♪]".toList, "[♪ 노래]".toList, "[♪ 애국가]".toList] := by
  unfold detect_music at h ⊢
  cases hA : t.isEmpty <;> simp only [hA, Bool.false_eq_true, if_false, if_true] at h ⊢
  · cases hB : musicPatternsFound t <;>
      simp only [hB, Bool.false_eq_true, if_false, if_true] at h ⊢
    · cases hC : lyricPatternsMatch ((pyStrip t).map lowerChar) <;>
        simp only [hC, Bool.false_eq_true, if_false, if_true] at h ⊢
      · cases hD : anthemFound t <;>
          simp only [hD, Bool.false_eq_true, if_false, if_true] at h ⊢
        · by_cases hE : (7 : ℚ)/10 < p ∧ q < -(9/10)
          · rw [if_pos hE] at h ⊢
            by_cases hF : (6 : ℚ)/10 < (p + (1 - |q|))/2
            · rw [if_pos hF]
              simp
            · rw [if_neg hF] at h
              simp at h
          · rw [if_neg hE] at h
            simp at h
        · simp
      · simp
    · simp

/-- C2: any segment the detector classifies as music (explicit marker,
lyric/scat, anthem lyric, or the statistical fallback) is emitted by
`filter_segments` with text exactly equal to the detector's fixed
replacement label (one of `[♪]`, `[♪ 노래]`, `[♪ 애국가]`), and the segment
bypasses every other stage: the emitted element does not depend on the
hallucination engine `reM` or the dictionary store `fs`, so no
hallucination filtering, dictionary correction, or profanity/sensitive-info
substitution touches it. -/
theorem music_segment_short_circuit (reM : List Char → List Char → Bool)
    (fs : StoreFile) (seg : Segment) (rest : List Segment) (minC maxN : ℚ)
    (h : (detect_music seg.text seg.no_speech_prob seg.avg_logprob).is_music = true) :
    filter_segments reM fs (seg :: rest) minC maxN true =
      ⟨seg, (detect_music seg.text seg.no_speech_prob seg.avg_logprob).replacement_text,
        true,
        some (detect_music seg.text seg.no_speech_prob seg.avg_logprob).content_type.val,
        (detect_music seg.text seg.no_speech_prob seg.avg_logprob).confidence⟩ ::
      filter_segments reM fs rest minC maxN true ∧
    (detect_music seg.text seg.no_speech_prob seg.avg_logprob).replacement_text ∈
      ["[♪]".toList, "[♪ 노래]".toList, "[♪ 애국가]".toList] := by
  refine ⟨?_, detect_music_replacement_mem _ _ _ h⟩
  conv_lhs => rw [filter_segments]
  rw [if_pos (by simp [h])]

/-- Witness for C2 at the specification's scenario-2 input `"[music]"`,
with an adversarial hallucination engine that matches everything — the
music label is still emitted untouched. -/
theorem music_segment_short_circuit_witness :
    (detect_music "[music]".toList 0 0).is_music = true ∧
    filter_segments (fun _ _ => true) .missing [⟨"[music]".toList, 0, 0⟩]
        (-(8/10)) (95/100) true =
      [⟨⟨"[music]".toList, 0, 0⟩, "[♪]".toList, true, some "music".toList, 95/100⟩] := by
  have h : (detect_music "[music]".toList 0 0).is_music = true := rfl
  refine ⟨h, ?_⟩
  rw [(music_segment_short_circuit (fun _ _ => true) .missing ⟨"[music]".toList, 0, 0⟩
    [] (-(8/10)) (95/100) h).1]
  rfl

/-! ## C3 -/

theorem threeConsecRepeat_length {ws : List (List Char)}
    (h : threeConsecRepeat ws = true) : 3 ≤ ws.length := by
  cases ws with
  | nil => simp [threeConsecRepeat] at h
  | cons a t =>
    cases t with
    | nil => simp [threeConsecRepeat] at h
    | cons b t2 =>
      cases t2 with
      | nil => simp [threeConsecRepeat] at h
      | cons c r => simp only [List.length_cons]; omega

/-- C3: `is_hallucination` returns true iff, after trimming, the text has
length at most 2 (in particular for the empty text), or some pattern of the
merged static+dynamic table matches it, or some word occurs three or more
times consecutively, or there are at least two tokens and exactly one
distinct word. -/
theorem is_hallucination_iff (reM : List Char → List Char → Bool)
    (fs : StoreFile) (text : List Char) :
    is_hallucination reM fs text = true ↔
      ((pyStrip text).length ≤ 2 ∨
        (getCompiledPatterns fs).any (fun p => reM p (pyStrip text)) = true ∨
        threeConsecRepeat (pySplit (pyStrip text)) = true ∨
        (2 ≤ (pySplit (pyStrip text)).length ∧
          (pySplit (pyStrip text)).dedup.length = 1)) := by
  unfold is_hallucination
  by_cases hne : text.isEmpty
  · rw [if_pos hne]
    have he : text = [] := List.isEmpty_iff.mp hne
    subst he
    simp [pyStrip, stripLeft, stripRight]
  · rw [if_neg hne]
    by_cases h2 : (pyStrip text).length ≤ 2
    · rw [if_pos h2]
      simp [h2]
    · rw [if_neg h2]
      by_cases hp : (getCompiledPatterns fs).any (fun p => reM p (pyStrip text)) = true
      · rw [if_pos hp]
        simp [hp]
      · rw [if_neg hp]
        by_cases h3 : (decide (3 ≤ (pySplit (pyStrip text)).length) &&
            threeConsecRepeat (pySplit (pyStrip text))) = true
        · rw [if_pos h3]
          simp only [Bool.and_eq_true, decide_eq_true_eq] at h3
          simp [h3.2]
        · rw [if_neg h3]
          by_cases h4 : (decide (2 ≤ (pySplit (pyStrip text)).length) &&
              ((pySplit (pyStrip text)).dedup.length == 1)) = true
          · rw [if_pos h4]
            simp only [Bool.and_eq_true, decide_eq_true_eq, beq_iff_eq] at h4
            simp only [true_iff]
            exact Or.inr (Or.inr (Or.inr h4))
          · rw [if_neg h4]
            simp only [Bool.and_eq_true, decide_eq_true_eq, beq_iff_eq] at h3 h4
            constructor
            · intro hFalse
              exact absurd hFalse (by simp)
            · rintro (hA | hB | hC | hD)
              · exact absurd hA h2
              · exact absurd hB hp
              · exact absurd ⟨threeConsecRepeat_length hC, hC⟩ h3
              · exact absurd hD h4

/-! ## C8 -/

theorem substCIF_eq_of_not_contains {a : Char} {p : List Char} (rep : List Char) :
    ∀ (fuel : ℕ) (s : List Char), containsCI (a :: p) s = false →
      substCIF a p rep fuel s = s := by
  intro fuel
  induction fuel with
  | zero => intro s _; cases s <;> rfl
  | succ fuel ih =>
    intro s hs
    cases s with
    | nil => rfl
    | cons c s =>
      simp only [containsCI, Bool.or_eq_false_iff] at hs
      simp only [substCIF, hs.1, Bool.false_eq_true, if_false]
      rw [ih s hs.2]

theorem substP_eq_of_not_contains {p : List Char} (rep s : List Char)
    (h : containsCI p s = false) : substP p rep s = s := by
  cases p with
  | nil => rfl
  | cons a p' => exact substCIF_eq_of_not_contains rep s.length s h

theorem applyRules_id (rules : List (List Char × List Char)) (y : List Char)
    (h : ∀ kv ∈ rules, containsCI kv.1 y = false) : applyRules rules y = y := by
  induction rules with
  | nil => rfl
  | cons kv rules ih =>
    unfold applyRules
    rw [List.foldl_cons, substP_eq_of_not_contains kv.2 y (h kv (by simp))]
    exact ih (fun kv' h' => h kv' (List.mem_cons_of_mem _ h'))

theorem scanSub_id (f : List Char → Option (List Char × List Char)) :
    ∀ (fuel : ℕ) (s : List Char), scanFind f s = false → scanSub f fuel s = s := by
  intro fuel
  induction fuel with
  | zero => intro s _; rfl
  | succ fuel ih =>
    intro s hs
    cases s with
    | nil => rfl
    | cons c s =>
      simp only [scanFind, Bool.or_eq_false_iff] at hs
      have hnone : f (c :: s) = none := by
        cases hf : f (c :: s) with
        | none => rfl
        | some v => rw [hf] at hs; simp at hs
      simp only [scanSub, hnone]
      rw [ih s hs.2]

theorem foldl_scanSub_id (ms : List (List Char → Option (List Char × List Char)))
    (y : List Char) (h : ∀ m ∈ ms, scanFind m y = false) :
    ms.foldl (fun t m => scanSub m t.length t) y = y := by
  induction ms with
  | nil => rfl
  | cons m ms ih =>
    rw [List.foldl_cons, scanSub_id m y.length y (h m (by simp))]
    exact ih (fun m' h' => h m' (List.mem_cons_of_mem _ h'))

/-- C8 as stated is false on the actual tables: the proper-noun rule
`박수 → [박수]` produces a value that still contains its own key, so a
second application of `apply_dictionary_mapping` rewrites `[박수]` to
`[[박수]]`. -/
theorem dictionary_mapping_not_idempotent :
    apply_dictionary_mapping .missing "박수".toList true = "[박수]".toList ∧
    apply_dictionary_mapping .missing
        (apply_dictionary_mapping .missing "박수".toList true) true ≠
      apply_dictionary_mapping .missing "박수".toList true := by
  constructor
  · decide
  · decide

/-- C8 (amended): `apply_dictionary_mapping` is not idempotent in general
(see `dictionary_mapping_not_idempotent`), but any text in which no
correction key (case-insensitively) occurs and no numeric pattern matches is
a fixed point; hence applying the stage twice equals applying it once
whenever the first pass lands in such a text — which the bracketed-label
values (`박수 → [박수]`) violate. -/
theorem dictionary_mapping_fixed_point (fs : StoreFile) (ag : Bool) (y : List Char)
    (hg : ∀ kv ∈ GOVERNMENT_CORRECTION_DICT ++ jsonGovRules fs,
      containsCI kv.1 y = false)
    (hp : ∀ kv ∈ PROPER_NOUN_DICT ++ jsonProperRules fs, containsCI kv.1 y = false)
    (ha : ∀ kv ∈ ABBREVIATION_DICT ++ jsonAbbrevRules fs, containsCI kv.1 y = false)
    (hn : ∀ m ∈ NUMBER_PATTERNS, scanFind m y = false) :
    apply_dictionary_mapping fs y ag = y := by
  unfold apply_dictionary_mapping
  by_cases hy : y.isEmpty
  · rw [if_pos hy]
  · rw [if_neg hy]
    have hg1 : applyRules GOVERNMENT_CORRECTION_DICT y = y :=
      applyRules_id _ _ (fun kv h => hg kv (List.mem_append_left _ h))
    have hg2 : applyRules (jsonGovRules fs) y = y :=
      applyRules_id _ _ (fun kv h => hg kv (List.mem_append_right _ h))
    have hp1 : applyRules PROPER_NOUN_DICT y = y :=
      applyRules_id _ _ (fun kv h => hp kv (List.mem_append_left _ h))
    have hp2 : applyRules (jsonProperRules fs) y = y :=
      applyRules_id _ _ (fun kv h => hp kv (List.mem_append_right _ h))
    have ha1 : applyRules ABBREVIATION_DICT y = y :=
      applyRules_id _ _ (fun kv h => ha kv (List.mem_append_left _ h))
    have ha2 : applyRules (jsonAbbrevRules fs) y = y :=
      applyRules_id _ _ (fun kv h => ha kv (List.mem_append_right _ h))
    cases ag with
    | false =>
      simp only [Bool.false_eq_true, if_false]
      rw [hp1, hp2, ha1, ha2]
      exact foldl_scanSub_id _ _ hn
    | true =>
      simp only [if_true]
      rw [hg1, hg2, hp1, hp2, ha1, ha2]
      exact foldl_scanSub_id _ _ hn

/-- Witness for C8's amended theorem: `"hello"` contains no correction key
and no numeric pattern, so the stage leaves it unchanged. -/
theorem dictionary_mapping_fixed_point_witness :
    apply_dictionary_mapping .missing "hello".toList true = "hello".toList := by
  exact dictionary_mapping_fixed_point .missing true "hello".toList
    (by decide) (by decide) (by decide) (by decide)

/-! ## C5 -/

theorem isPrefixCI_through_mask_subst (a : Char) (p : List Char) :
    ∀ (fuel : ℕ) (s q : List Char), (∀ c ∈ q, charCI c '*' = false) →
      isPrefixCI q (substCIF a p ['*', '*', '*'] fuel s) = true →
      isPrefixCI q s = true := by
  intro fuel
  induction fuel with
  | zero => intro s q _ h; cases s <;> exact h
  | succ fuel ih =>
    intro s q hq h
    cases s with
    | nil => exact h
    | cons c s =>
      by_cases hm : isPrefixCI (a :: p) (c :: s) = true
      · simp only [substCIF, if_pos hm] at h
        cases q with
        | nil => rfl
        | cons b q' =>
          simp only [List.cons_append, isPrefixCI, hq b (by simp),
            Bool.false_and] at h
          exact absurd h (by simp)
      · simp only [substCIF, if_neg hm] at h
        cases q with
        | nil => rfl
        | cons b q' =>
          simp only [isPrefixCI, Bool.and_eq_true] at h ⊢
          exact ⟨h.1, ih s q' (fun x hx => hq x (by simp [hx])) h.2⟩

theorem containsCI_mask_cons {q : List Char} (t : List Char)
    (hq : ∀ c ∈ q, charCI c '*' = false) (hne : q ≠ []) :
    containsCI q ('*' :: t) = containsCI q t := by
  cases q with
  | nil => exact absurd rfl hne
  | cons b q' => simp [containsCI, isPrefixCI, hq b (by simp)]

theorem containsCI_through_mask_subst (a : Char) (p : List Char) :
    ∀ (fuel : ℕ) (s q : List Char), (∀ c ∈ q, charCI c '*' = false) →
      containsCI q (substCIF a p ['*', '*', '*'] fuel s) = true →
      containsCI q s = true := by
  intro fuel
  induction fuel with
  | zero => intro s q _ h; cases s <;> exact h
  | succ fuel ih =>
    intro s q hq h
    cases s with
    | nil => exact h
    | cons c s =>
      by_cases hqe : q = []
      · subst hqe; exact containsCI_nil_left _
      · by_cases hm : isPrefixCI (a :: p) (c :: s) = true
        · simp only [substCIF, if_pos hm, List.cons_append, List.nil_append] at h
          rw [containsCI_mask_cons _ hq hqe, containsCI_mask_cons _ hq hqe,
            containsCI_mask_cons _ hq hqe] at h
          have h1 := ih (s.drop p.length) q hq h
          have h2 : containsCI q ((c :: s).drop (p.length + 1)) = true := by
            simpa using h1
          exact containsCI_of_drop h2
        · simp only [substCIF, if_neg hm] at h
          simp only [containsCI, Bool.or_eq_true] at h ⊢
          rcases h with h | h
          · left
            cases q with
            | nil => rfl
            | cons b q' =>
              simp only [isPrefixCI, Bool.and_eq_true] at h ⊢
              exact ⟨h.1, isPrefixCI_through_mask_subst a p fuel s q'
                (fun x hx => hq x (by simp [hx])) h.2⟩
          · exact Or.inr (ih s q hq h)

theorem mask_subst_self_clean (a : Char) (p : List Char)
    (hq : ∀ c ∈ a :: p, charCI c '*' = false) :
    ∀ (fuel : ℕ) (s : List Char), s.length ≤ fuel →
      containsCI (a :: p) (substCIF a p ['*', '*', '*'] fuel s) = false := by
  intro fuel
  induction fuel with
  | zero =>
    intro s hs
    have : s = [] := List.length_eq_zero.mp (Nat.le_zero.mp hs)
    subst this
    rfl
  | succ fuel ih =>
    intro s hs
    cases s with
    | nil => rfl
    | cons c s =>
      simp only [List.length_cons, Nat.add_le_add_iff_right] at hs
      by_cases hm : isPrefixCI (a :: p) (c :: s) = true
      · simp only [substCIF, if_pos hm, List.cons_append, List.nil_append]
        rw [containsCI_mask_cons _ hq (by simp), containsCI_mask_cons _ hq (by simp),
          containsCI_mask_cons _ hq (by simp)]
        exact ih (s.drop p.length)
          (le_trans (by simp [List.length_drop]) hs)
      · simp only [substCIF, if_neg hm]
        have hX : containsCI (a :: p) (substCIF a p ['*', '*', '*'] fuel s) = false :=
          ih s hs
        have hpre : isPrefixCI (a :: p) (c :: substCIF a p ['*', '*', '*'] fuel s) = false := by
          by_contra hh
          rw [Bool.not_eq_false] at hh
          simp only [isPrefixCI, Bool.and_eq_true] at hh
          have hps : isPrefixCI p s = true :=
            isPrefixCI_through_mask_subst a p fuel s p
              (fun x hx => hq x (by simp [hx])) hh.2
          have : isPrefixCI (a :: p) (c :: s) = true := by
            simp only [isPrefixCI, Bool.and_eq_true]
            exact ⟨hh.1, hps⟩
          exact hm this
        simp [containsCI, hpre, hX]

theorem countCIF_eq_zero_iff (a : Char) (p : List Char) :
    ∀ (fuel : ℕ) (s : List Char), s.length ≤ fuel →
      (countCIF a p fuel s = 0 ↔ containsCI (a :: p) s = false) := by
  intro fuel
  induction fuel with
  | zero =>
    intro s hs
    have : s = [] := List.length_eq_zero.mp (Nat.le_zero.mp hs)
    subst this
    simp [countCIF, containsCI, isPrefixCI]
  | succ fuel ih =>
    intro s hs
    cases s with
    | nil => simp [countCIF, containsCI, isPrefixCI]
    | cons c s =>
      simp only [List.length_cons, Nat.add_le_add_iff_right] at hs
      by_cases hm : isPrefixCI (a :: p) (c :: s) = true
      · simp [countCIF, hm, containsCI]
      · simp only [countCIF, if_neg hm, containsCI, hm, Bool.false_or]
        exact ih s hs

theorem countP_eq_zero_iff {p : List Char} (s : List Char) (hp : p ≠ []) :
    countP p s = 0 ↔ containsCI p s = false := by
  cases p with
  | nil => exact absurd rfl hp
  | cons a p' => exact countCIF_eq_zero_iff a p' s.length s le_rfl

theorem containsCI_substP_mask {p : List Char} (t e : List Char)
    (he : ∀ c ∈ e, charCI c '*' = false)
    (h : containsCI e (substP p "***".toList t) = true) :
    containsCI e t = true := by
  cases p with
  | nil => exact h
  | cons a p' => exact containsCI_through_mask_subst a p' t.length t e he h

theorem profanity_fold_preserves (e : List Char)
    (he : ∀ c ∈ e, charCI c '*' = false) :
    ∀ (ps : List (List Char)) (t : List Char) (k : ℕ),
      containsCI e t = false →
      containsCI e ((ps.foldl (fun acc p =>
        let n := countP p acc.1
        if 0 < n then (substP p "***".toList acc.1, acc.2 + n) else acc)
        (t, k)).1) = false := by
  intro ps
  induction ps with
  | nil => intro t k h; exact h
  | cons p ps ih =>
    intro t k h
    rw [List.foldl_cons]
    dsimp only
    by_cases hn : 0 < countP p t
    · rw [if_pos hn]
      refine ih _ _ ?_
      by_contra hcon
      rw [Bool.not_eq_false] at hcon
      rw [containsCI_substP_mask t e he hcon] at h
      exact absurd h (by simp)
    · rw [if_neg hn]
      exact ih _ _ h

theorem profanity_fold_clean :
    ∀ (ps : List (List Char)) (t : List Char) (k : ℕ),
      (∀ p ∈ ps, p ≠ [] ∧ ∀ c ∈ p, charCI c '*' = false) →
      ∀ e ∈ ps, containsCI e ((ps.foldl (fun acc p =>
        let n := countP p acc.1
        if 0 < n then (substP p "***".toList acc.1, acc.2 + n) else acc)
        (t, k)).1) = false := by
  intro ps
  induction ps with
  | nil => intro t k _ e he; exact absurd he (List.not_mem_nil e)
  | cons p ps ih =>
    intro t k hprops e he
    rw [List.foldl_cons]
    dsimp only
    rcases List.mem_cons.mp he with he1 | he2
    · subst he1
      obtain ⟨hpne, hpstar⟩ := hprops e (by simp)
      have hstep : containsCI e ((if 0 < countP e t
          then (substP e "***".toList t, k + countP e t) else (t, k)).1) = false := by
        by_cases hn : 0 < countP e t
        · rw [if_pos hn]
          cases e with
          | nil => exact absurd rfl hpne
          | cons a p' =>
            exact mask_subst_self_clean a p' hpstar t.length t le_rfl
        · rw [if_neg hn]
          exact (countP_eq_zero_iff t hpne).mp (Nat.eq_zero_of_not_pos hn)
      rcases hif : (if 0 < countP e t
          then (substP e "***".toList t, k + countP e t) else (t, k)) with ⟨t', k'⟩
      rw [hif] at hstep
      exact profanity_fold_preserves e hpstar ps t' k' hstep
    · by_cases hn : 0 < countP p t
      · rw [if_pos hn]
        exact ih _ _ (fun p' h' => hprops p' (List.mem_cons_of_mem _ h')) e he2
      · rw [if_neg hn]
        exact ih _ _ (fun p' h' => hprops p' (List.mem_cons_of_mem _ h')) e he2

/-- C5 as stated is false: for the input `개새끼` the merged table has three
entry occurrences in the input (`개새끼`, `개새`, `새끼`), but
`filter_profanity` reports a count of 1, since later patterns are matched
against the already-masked text. -/
theorem profanity_count_not_input_occurrences :
    (filter_profanity .missing "개새끼".toList "***".toList).2 = 1 ∧
    ((getCompiledProfanityPatterns .missing).map
      (fun p => countP p "개새끼".toList)).sum = 3 ∧ (1 : ℕ) ≠ 3 := by
  refine ⟨by decide, by decide, by decide⟩

/-- C5 (amended): masking is exhaustive — provided every merged table entry
is nonempty and free of the mask character `*` (true of the built-in
table), the output of `filter_profanity` contains no (case-insensitive)
occurrence of any table entry; the reported count totals the
non-overlapping matches each pattern finds against the progressively masked
text, which can undercount nested or overlapping entry occurrences of the
raw input (`개새끼` counts once although `개새` and `새끼` also occur). -/
theorem profanity_masking_exhaustive (fs : StoreFile) (text e : List Char)
    (hents : ∀ p ∈ getCompiledProfanityPatterns fs,
      p ≠ [] ∧ ∀ c ∈ p, charCI c '*' = false)
    (he : e ∈ getCompiledProfanityPatterns fs) :
    containsCI e (filter_profanity fs text "***".toList).1 = false := by
  unfold filter_profanity
  by_cases ht : text.isEmpty
  · rw [if_pos ht]
    have htnil : text = [] := List.isEmpty_iff.mp ht
    obtain ⟨hene, _⟩ := hents e he
    subst htnil
    cases e with
    | nil => exact absurd rfl hene
    | cons a p' => rfl
  · rw [if_neg ht]
    exact profanity_fold_clean _ text 0 hents e he

/-- Witness for C5's amended theorem: the static table is nonempty and
mask-free, and masking `아 씨발 놈아` leaves no occurrence of `씨발`. -/
theorem profanity_masking_exhaustive_witness :
    containsCI "씨발".toList
      (filter_profanity .missing "아 씨발 놈아".toList "***".toList).1 = false := by
  exact profanity_masking_exhaustive .missing "아 씨발 놈아".toList "씨발".toList
    (by decide) (by decide)

/-! ## C7 -/

theorem getLast?_eq_some_mem {α : Type} {l : List α} {a : α}
    (h : l.getLast? = some a) : a ∈ l := by
  rcases List.mem_getLast?_eq_getLast (l := l) (x := a) (by simp [h]) with ⟨hh, rfl⟩
  exact List.getLast_mem hh

theorem pyRfind_spec {s sub : List Char} (h : 0 ≤ pyRfind s sub) :
    occAt sub s (pyRfind s sub).toNat = true := by
  unfold pyRfind at h ⊢
  cases hL : ((List.range (s.length + 1)).filter (occAt sub s)).getLast? with
  | none => rw [hL] at h; simp at h
  | some j =>
    dsimp only
    have hj := getLast?_eq_some_mem hL
    have := (List.mem_filter.mp hj).2
    simpa using this

theorem pyRfindIn_spec {s sub : List Char} {start stop : ℕ}
    (h : 0 ≤ pyRfindIn s sub start stop) :
    start ≤ (pyRfindIn s sub start stop).toNat ∧
    (pyRfindIn s sub start stop).toNat + sub.length ≤ stop ∧
    occAt sub s (pyRfindIn s sub start stop).toNat = true := by
  unfold pyRfindIn at h ⊢
  cases hL : ((List.range (s.length + 1)).filter
      (fun i => decide (start ≤ i) && decide (i + sub.length ≤ stop) &&
        occAt sub s i)).getLast? with
  | none => rw [hL] at h; simp at h
  | some j =>
    dsimp only
    have hj := getLast?_eq_some_mem hL
    have hcond := (List.mem_filter.mp hj).2
    simp only [Bool.and_eq_true, decide_eq_true_eq] at hcond
    simpa using ⟨hcond.1.1, hcond.1.2, hcond.2⟩

theorem pyFindFrom_spec {s sub : List Char} {start : ℕ}
    (h : 0 ≤ pyFindFrom s sub start) :
    start ≤ (pyFindFrom s sub start).toNat ∧
    occAt sub s (pyFindFrom s sub start).toNat = true := by
  unfold pyFindFrom at h ⊢
  cases hL : ((List.range (s.length + 1)).filter
      (fun i => decide (start ≤ i) && occAt sub s i)).head? with
  | none => rw [hL] at h; simp at h
  | some j =>
    dsimp only
    have hj : j ∈ (List.range (s.length + 1)).filter
        (fun i => decide (start ≤ i) && occAt sub s i) :=
      List.mem_of_mem_head? (by simp [hL])
    have hcond := (List.mem_filter.mp hj).2
    simp only [Bool.and_eq_true, decide_eq_true_eq] at hcond
    simpa using ⟨hcond.1, hcond.2⟩

theorem pyStrip_take_of_occ_last_ws {rem sub : List Char} {n i : ℕ}
    (hocc : occAt sub (rem.take n) i = true)
    (u : List Char) (w : Char) (hsub : sub = u ++ [w]) (hw : pyWs w = true) :
    (pyStrip (rem.take (i + sub.length))).length + 1 ≤ i + sub.length := by
  unfold occAt at hocc
  have hpre : sub <+: (rem.take n).drop i := List.isPrefixOf_iff_prefix.mp hocc
  rw [List.drop_take] at hpre
  have hpre2 : sub <+: rem.drop i := hpre.trans (List.take_prefix _ _)
  have htake : (rem.drop i).take sub.length = sub :=
    (List.prefix_iff_eq_take.mp hpre2).symm
  have h1 : rem.take (i + sub.length) = rem.take i ++ sub := by
    rw [List.take_add, htake]
  rw [h1, hsub, ← List.append_assoc, pyStrip_append_ws hw]
  have h2 : (pyStrip (rem.take i ++ u)).length ≤ (rem.take i ++ u).length :=
    pyStrip_length_le _
  have h3 : (rem.take i).length ≤ i := by simp [List.length_take]
  simp only [List.length_append] at h2
  have h4 : (u ++ [w]).length = u.length + 1 := by simp
  omega

theorem bestSplit_eq_p1 {st : List Char} {minL maxL v : ℕ}
    (h1 : bestSplitP1 st minL maxL = some v) : bestSplit st minL maxL = v := by
  unfold bestSplit
  rw [h1]
  rfl
theorem bestSplit_eq_p2 {st : List Char} {minL maxL v : ℕ}
    (h1 : bestSplitP1 st minL maxL = none)
    (h2 : bestSplitP2 st minL maxL = some v) : bestSplit st minL maxL = v := by
  unfold bestSplit
  rw [h1, h2]
  rfl
theorem bestSplit_eq_p3 {st : List Char} {minL maxL v : ℕ}
    (h1 : bestSplitP1 st minL maxL = none)
    (h2 : bestSplitP2 st minL maxL = none)
    (h3 : bestSplitP3 st minL maxL = some v) : bestSplit st minL maxL = v := by
  unfold bestSplit
  rw [h1, h2, h3]
  rfl
theorem bestSplit_eq_p4 {st : List Char} {minL maxL v : ℕ}
    (h1 : bestSplitP1 st minL maxL = none)
    (h2 : bestSplitP2 st minL maxL = none)
    (h3 : bestSplitP3 st minL maxL = none)
    (h4 : bestSplitP4 st minL maxL = some v) : bestSplit st minL maxL = v := by
  unfold bestSplit
  rw [h1, h2, h3, h4]
  rfl
theorem bestSplit_eq_p5 {st : List Char} {minL maxL v : ℕ}
    (h1 : bestSplitP1 st minL maxL = none)
    (h2 : bestSplitP2 st minL maxL = none)
    (h3 : bestSplitP3 st minL maxL = none)
    (h4 : bestSplitP4 st minL maxL = none)
    (h5 : bestSplitP5 st minL maxL = some v) : bestSplit st minL maxL = v := by
  unfold bestSplit
  rw [h1, h2, h3, h4, h5]
  rfl
theorem bestSplit_eq_forced {st : List Char} {minL maxL : ℕ}
    (h1 : bestSplitP1 st minL maxL = none)
    (h2 : bestSplitP2 st minL maxL = none)
    (h3 : bestSplitP3 st minL maxL = none)
    (h4 : bestSplitP4 st minL maxL = none)
    (h5 : bestSplitP5 st minL maxL = none) : bestSplit st minL maxL = maxL := by
  unfold bestSplit
  rw [h1, h2, h3, h4, h5]
  rfl
theorem splitLine_le (rem : List Char) (minL maxL : ℕ) :
    (pyStrip (rem.take (bestSplit (rem.take (maxL + 20)) minL maxL))).length ≤
      maxL + 2 := by
  have hts : ∀ v, v ≤ maxL + 2 → (pyStrip (rem.take v)).length ≤ maxL + 2 := by
    intro v hv
    calc (pyStrip (rem.take v)).length ≤ (rem.take v).length := pyStrip_length_le _
      _ ≤ v := by simp [List.length_take]
      _ ≤ maxL + 2 := hv
  cases h1 : bestSplitP1 (rem.take (maxL + 20)) minL maxL with
  | some v =>
    rw [bestSplit_eq_p1 h1]
    unfold bestSplitP1 at h1
    obtain ⟨punct, hmem, hp⟩ := List.exists_of_findSome?_eq_some h1
    dsimp only at hp
    split_ifs at hp with hcond
    rw [Option.some.injEq] at hp
    have hle : (pyRfind (rem.take (maxL + 20)) punct).toNat ≤ maxL := by omega
    have hplen : punct.length ≤ 2 := by fin_cases hmem <;> decide
    exact hts v (by omega)
  | none =>
  cases h2 : bestSplitP2 (rem.take (maxL + 20)) minL maxL with
  | some v =>
    rw [bestSplit_eq_p2 h1 h2]
    unfold bestSplitP2 at h2
    obtain ⟨m, hmem, hp⟩ := List.exists_of_findSome?_eq_some h2
    dsimp only at hp
    split_ifs at hp with hcond
    rw [Option.some.injEq] at hp
    have h0 : 0 ≤ pyFindFrom (rem.take (maxL + 20)) m minL := le_of_lt hcond.1
    obtain ⟨-, hocc⟩ := pyFindFrom_spec h0
    have hle : (pyFindFrom (rem.take (maxL + 20)) m minL).toNat ≤ maxL := by omega
    subst hp
    fin_cases hmem
    · have hb := pyStrip_take_of_occ_last_ws hocc "네,".toList ' ' rfl rfl
      have hlen : ("네, ".toList).length = 3 := rfl
      omega
    · have hb := pyStrip_take_of_occ_last_ws hocc "예,".toList ' ' rfl rfl
      have hlen : ("예, ".toList).length = 3 := rfl
      omega
    · exact hts _ (by have hlen : ("네,".toList).length = 2 := rfl; omega)
    · exact hts _ (by have hlen : ("예,".toList).length = 2 := rfl; omega)
  | none =>
  cases h3 : bestSplitP3 (rem.take (maxL + 20)) minL maxL with
  | some v =>
    rw [bestSplit_eq_p3 h1 h2 h3]
    unfold bestSplitP3 at h3
    obtain ⟨conj, hmem, hp⟩ := List.exists_of_findSome?_eq_some h3
    dsimp only at hp
    split_ifs at hp with hcond
    rw [Option.some.injEq] at hp
    exact hts v (by omega)
  | none =>
  cases h4 : bestSplitP4 (rem.take (maxL + 20)) minL maxL with
  | some v =>
    rw [bestSplit_eq_p4 h1 h2 h3 h4]
    unfold bestSplitP4 at h4
    dsimp only at h4
    split_ifs at h4 with hcond
    rw [Option.some.injEq] at h4
    obtain ⟨-, hstop, -⟩ := pyRfindIn_spec (le_of_lt hcond)
    have hlen : (", ".toList).length = 2 := rfl
    exact hts v (by omega)
  | none =>
  cases h5 : bestSplitP5 (rem.take (maxL + 20)) minL maxL with
  | some v =>
    rw [bestSplit_eq_p5 h1 h2 h3 h4 h5]
    unfold bestSplitP5 at h5
    dsimp only at h5
    split_ifs at h5 with hcond
    rw [Option.some.injEq] at h5
    obtain ⟨-, hstop, -⟩ := pyRfindIn_spec (le_of_lt hcond)
    have hlen : ([' '] : List Char).length = 1 := rfl
    exact hts v (by omega)
  | none =>
    rw [bestSplit_eq_forced h1 h2 h3 h4 h5]
    exact hts maxL (by omega)

theorem splitLoop_le (maxL minL : ℕ) :
    ∀ (fuel : ℕ) (rem : List Char), ∀ l ∈ splitLoop maxL minL fuel rem,
      l.length ≤ maxL + 2 := by
  intro fuel
  induction fuel with
  | zero => intro rem l hl; simp [splitLoop] at hl
  | succ fuel ih =>
    intro rem l hl
    unfold splitLoop at hl
    dsimp only at hl
    by_cases he : (pyStrip rem).isEmpty
    · rw [if_pos he] at hl
      simp at hl
    · rw [if_neg he] at hl
      by_cases hs : (pyStrip rem).length ≤ maxL
      · rw [if_pos hs] at hl
        rw [List.mem_singleton] at hl
        subst hl
        omega
      · rw [if_neg hs] at hl
        rcases List.mem_append.mp hl with hl1 | hl2
        · split_ifs at hl1
          · simp at hl1
          · rw [List.mem_singleton] at hl1
            subst hl1
            exact splitLine_le (pyStrip rem) minL maxL
        · exact ih _ l hl2

theorem mergeAux_le (maxL minL B : ℕ) (hB : maxL ≤ B) :
    ∀ (ls : List (List Char)) (cur : List Char), cur.length ≤ B →
      (∀ l ∈ ls, l.length ≤ B) →
      ∀ l' ∈ mergeAux maxL minL cur ls, l'.length ≤ B := by
  intro ls
  induction ls with
  | nil =>
    intro cur hc _ l' hl'
    rw [mergeAux, List.mem_singleton] at hl'
    subst hl'
    exact hc
  | cons l ls ih =>
    intro cur hc hls l' hl'
    rw [mergeAux] at hl'
    split_ifs at hl' with hcond
    · refine ih _ ?_ (fun x hx => hls x (List.mem_cons_of_mem _ hx)) l' hl'
      simp only [List.length_append, List.length_cons]
      omega
    · rcases List.mem_cons.mp hl' with hl1 | hl2
      · subst hl1; exact hc
      · exact ih _ (hls l (by simp)) (fun x hx => hls x (List.mem_cons_of_mem _ hx)) l' hl2

theorem mergeAux_head (maxL minL : ℕ) :
    ∀ (ls : List (List Char)) (cur : List Char),
      ∃ h t, mergeAux maxL minL cur ls = h :: t ∧ cur.length ≤ h.length := by
  intro ls
  induction ls with
  | nil => intro cur; exact ⟨cur, [], rfl, le_rfl⟩
  | cons l ls ih =>
    intro cur
    rw [mergeAux]
    split_ifs with hcond
    · obtain ⟨h, t, heq, hle⟩ := ih (cur ++ ' ' :: l)
      refine ⟨h, t, heq, le_trans ?_ hle⟩
      simp
    · exact ⟨cur, mergeAux maxL minL l ls, rfl, le_rfl⟩

theorem mergeAux_chain (maxL minL : ℕ) :
    ∀ (ls : List (List Char)) (cur : List Char),
      List.Chain' (fun a b => b.length < minL → maxL < a.length + b.length + 1)
        (mergeAux maxL minL cur ls) := by
  intro ls
  induction ls with
  | nil => intro cur; exact List.chain'_singleton cur
  | cons l ls ih =>
    intro cur
    rw [mergeAux]
    split_ifs with hcond
    · exact ih (cur ++ ' ' :: l)
    · rw [List.chain'_cons']
      refine ⟨?_, ih l⟩
      intro hd hh hlen
      obtain ⟨h', t', heq, hle⟩ := mergeAux_head maxL minL ls l
      rw [heq] at hh
      simp only [List.head?_cons, Option.mem_def, Option.some.injEq] at hh
      have hl : l.length ≤ hd.length := by rw [← hh]; exact hle
      push_neg at hcond
      by_cases hlmin : l.length < minL
      · have h2 := hcond hlmin
        omega
      · omega

/-- C7 as stated is false: with `max_length = 5`, `min_length = 2` the text
`aaaaa. bbbbbb` is split with a sentence break point found at index 5
(allowed since the code checks `idx <= max_length` before adding the
punctuation length), producing the line `aaaaa.` of length 6 — more than
`max_length` and not a forced break of exactly `max_length`. -/
theorem split_line_exceeds_max :
    split_for_subtitle "aaaaa. bbbbbb".toList 5 2 =
      ["aaaaa.".toList, "bbbbb".toList, "b".toList] ∧
    ¬ (("aaaaa.".toList).length ≤ 5) := by
  constructor
  · decide
  · decide

/-- C7 (amended): every line returned by `split_for_subtitle` has length at
most `max_length + 2` (sentence-punctuation and response-marker break
points may overshoot `max_length` by up to two characters after stripping,
replacing the claimed `max_length` bound and forced-break exception), and
the merge pass is complete: in the returned list, any line shorter than
`min_length` follows a line with which it could not be merged (their
combined length plus the joining space exceeds `max_length`). -/
theorem split_for_subtitle_bounds (text : List Char) (maxL minL : ℕ) :
    (∀ l ∈ split_for_subtitle text maxL minL, l.length ≤ maxL + 2) ∧
    List.Chain' (fun a b => b.length < minL → maxL < a.length + b.length + 1)
      (split_for_subtitle text maxL minL) := by
  unfold split_for_subtitle
  by_cases he : text.isEmpty
  · rw [if_pos he]
    exact ⟨fun l hl => absurd hl (List.not_mem_nil l), List.chain'_nil⟩
  · rw [if_neg he]
    by_cases hs : (pyStrip text).length ≤ maxL
    · rw [if_pos hs]
      refine ⟨fun l hl => ?_, List.chain'_singleton _⟩
      rw [List.mem_singleton] at hl
      subst hl
      omega
    · rw [if_neg hs]
      cases hsp : splitLoop maxL minL ((pyStrip text).length + 1) (pyStrip text) with
      | nil =>
        rw [mergeShort]
        exact ⟨fun l hl => absurd hl (List.not_mem_nil l), List.chain'_nil⟩
      | cons l0 ls =>
        rw [mergeShort]
        constructor
        · refine mergeAux_le maxL minL (maxL + 2) (by omega) ls l0 ?_ ?_
          · exact splitLoop_le maxL minL _ _ l0 (by rw [hsp]; simp)
          · intro x hx
            exact splitLoop_le maxL minL _ _ x (by rw [hsp]; exact List.mem_cons_of_mem _ hx)
        · exact mergeAux_chain maxL minL ls l0
